import Mathlib

/-!
Shallow embedding of the vincent-ai job-runner core (TypeScript) in Lean 4,
with theorems settling the frozen claims about its specification.

Modelling conventions, used throughout:
* BigInt values and decimal-string amounts are modelled as `Nat` (they are
  non-negative in the source); signed intermediate results use `Int`.
* `Date` values and timestamps are milliseconds since the epoch, as `Int`;
  `new Date(tx.timestamp)` comparisons become `Int` comparisons.
* JavaScript `Map` and `Set` preserve insertion order; they are modelled as
  association lists (`AList`) and duplicate-free lists with append-at-end
  insertion.
* `Array.prototype.sort` (stable in modern engines) is a stable insertion
  sort; a consistent comparator determines the result of any stable sort.
* `Array.prototype.slice(0, n)` is `List.take n`.
* Floating-point comparisons of integer-valued quantities (e.g.
  `Number(bigint)` coercions) are modelled exactly over `Nat`/`Int`, and
  fractional float arithmetic exactly over `JSNum` rationals; no claim in
  scope depends on float rounding at a threshold boundary.
* A network fetch is a parameter of the embedded cycle function: the cycle
  is a pure function of the fetched page, the prior snapshot and `now`.
-/

namespace VincentAI

/-- Association list keyed by strings, preserving JS `Map` insertion order. -/
abbrev AList (β : Type) := List (String × β)

/-- `Map.get`: first binding for the key, if any. -/
def alFind {β : Type} (m : AList β) (k : String) : Option β :=
  (m.find? (fun p => p.1 == k)).map (fun p => p.2)

/-- `Map.set`: overwrite in place if the key exists, else append (JS maps keep
the original insertion position on overwrite). -/
def alSet {β : Type} (m : AList β) (k : String) (v : β) : AList β :=
  if (m.find? (fun p => p.1 == k)).isSome then
    m.map (fun p => if p.1 == k then (k, v) else p)
  else m ++ [(k, v)]

/-- `Set.add`: append if absent, preserving insertion order. -/
def setAdd (s : List String) (x : String) : List String :=
  if s.contains x then s else s ++ [x]

/-- `.toLowerCase()`: character-wise lowering. (Structurally recursive —
unlike `String.toLower` — so concrete evaluations reduce in the kernel;
the two agree on every string.) -/
def jsToLower (s : String) : String := String.mk (s.data.map Char.toLower)

/-- `.slice(0, n)` on a string. -/
def strTake (s : String) (n : Nat) : String := String.mk (s.data.take n)

/-- Insert `x` into a descending-sorted list, after any element with an
equal key (preserving the stability of JS `Array.prototype.sort`). -/
def insertDescBy {α : Type} (key : α → Int) (x : α) : List α → List α
  | [] => [x]
  | y :: ys => if key x > key y then x :: y :: ys else y :: insertDescBy key x ys

/-- Stable descending sort by an integer key (JS
`.sort((a, b) => Number(keyOf b - keyOf a))`, stable in modern engines; any
stable sort under a consistent comparator yields this result). -/
def sortByDesc {α : Type} (key : α → Int) (l : List α) : List α :=
  l.foldl (fun acc x => insertDescBy key x acc) []

/-- Insert into an ascending-sorted list of numbers, stably. -/
def insertAscNat (x : Nat) : List Nat → List Nat
  | [] => [x]
  | y :: ys => if x < y then x :: y :: ys else y :: insertAscNat x ys

/-- Stable ascending numeric sort (JS `.sort((a, b) => Number(a - b))`). -/
def sortAscNat (l : List Nat) : List Nat :=
  l.foldl (fun acc x => insertAscNat x acc) []

/-- One character of `/[a-fA-F0-9]/`. -/
def isHexChar (c : Char) : Bool :=
  c.isDigit || (('a' ≤ c && c ≤ 'f') || ('A' ≤ c && c ≤ 'F'))

/-- `/^0x[a-fA-F0-9]{40}$/.test(address)` (token.ts, nft.ts, run.ts). -/
def isValidEthereumAddress (address : String) : Bool :=
  match address.data with
  | '0' :: 'x' :: rest => rest.length == 40 && rest.all isHexChar
  | _ => false

/-- Exact rational arithmetic for the source's float computations, as
unnormalised `num / den` pairs with `den > 0` by construction. All the
embedded float expressions are small exact rationals, and every comparison
the source makes on them is modelled by cross-multiplication, so no
normalisation is needed. (Mathlib's `ℚ` would need `Nat.gcd`-normalising
division, which blocks kernel evaluation of the concrete witnesses.) -/
structure JSNum where
  num : Int
  den : Nat
  deriving Repr, DecidableEq, Inhabited

/-- Embed a natural number. -/
def JSNum.ofNat (n : Nat) : JSNum := { num := n, den := 1 }

/-- Embed an integer. -/
def JSNum.ofInt (n : Int) : JSNum := { num := n, den := 1 }

/-- Addition. -/
def JSNum.add (a b : JSNum) : JSNum :=
  { num := a.num * b.den + b.num * a.den, den := a.den * b.den }

/-- Subtraction. -/
def JSNum.sub (a b : JSNum) : JSNum :=
  { num := a.num * b.den - b.num * a.den, den := a.den * b.den }

/-- Multiplication. -/
def JSNum.mul (a b : JSNum) : JSNum := { num := a.num * b.num, den := a.den * b.den }

/-- Division (the embedded code only ever divides by positive values). -/
def JSNum.div (a b : JSNum) : JSNum :=
  if b.num < 0 then { num := -(a.num * b.den), den := a.den * (-b.num).toNat }
  else { num := a.num * b.den, den := a.den * b.num.toNat }

/-- Strict comparison `a < b` by cross-multiplication. -/
def JSNum.lt (a b : JSNum) : Bool := decide (a.num * b.den < b.num * a.den)

/-- Absolute value (`Math.abs`). -/
def JSNum.abs (a : JSNum) : JSNum := { num := |a.num|, den := a.den }

/-- `Math.max(a, 1)`. -/
def JSNum.max1 (a : JSNum) : JSNum :=
  if JSNum.lt a (JSNum.ofNat 1) then JSNum.ofNat 1 else a

/-- Outcome of one analyzer cycle: a thrown error, the `null` no-change
result, or a persisted snapshot. -/
inductive CycleResult (α : Type) where
  | fail (code : String)
  | nullResult
  | saved (snapshot : α)
  deriving Repr, DecidableEq, Inhabited

/-- `true` exactly when the cycle persisted (and returned) a snapshot. -/
def CycleResult.isSaved {α : Type} : CycleResult α → Bool
  | .saved _ => true
  | _ => false

/-- Alert as stored on snapshots; the human-readable `message` and the
`data` payload are dropped (no claim concerns them). -/
structure Alert where
  type_ : String
  severity : String
  deriving Repr, DecidableEq, Inhabited

namespace Token

/-- token.ts `TokenInfo` (fields beyond identification are irrelevant to the
claims and carried opaquely). -/
structure TokenInfo where
  hash : String
  name : String
  symbol : String
  deriving Repr, DecidableEq, Inhabited

/-- token.ts `Transaction` (an ERC-20 transfer row from the feed). -/
structure Tx where
  timestamp : Int
  from_ : String
  to_ : String
  value : Nat
  txHash : String
  status : Bool
  token : TokenInfo
  deriving Repr, DecidableEq, Inhabited

/-- Entry of `FlowMetrics.largeTransfers`. -/
structure LargeTransfer where
  txHash : String
  from_ : String
  to_ : String
  value : Nat
  timestamp : Int
  deriving Repr, DecidableEq, Inhabited

/-- Entry of `FlowMetrics.burnTransactions`. -/
structure BurnTx where
  txHash : String
  from_ : String
  value : Nat
  timestamp : Int
  deriving Repr, DecidableEq, Inhabited

/-- Entry of `FlowMetrics.topSenders`. -/
structure SenderStat where
  address : String
  totalSent : Nat
  transactionCount : Nat
  deriving Repr, DecidableEq, Inhabited

/-- Entry of `FlowMetrics.topReceivers`. -/
structure ReceiverStat where
  address : String
  totalReceived : Nat
  transactionCount : Nat
  deriving Repr, DecidableEq, Inhabited

/-- `FlowMetrics.volumeByTimeframe`. -/
structure VolumeByTimeframe where
  last1h : Nat
  last6h : Nat
  last24h : Nat
  deriving Repr, DecidableEq, Inhabited

/-- `FlowMetrics.transferPatterns`. -/
structure TransferPatterns where
  avgTransferSize : Nat
  medianTransferSize : Nat
  transferFrequency : Nat
  deriving Repr, DecidableEq, Inhabited

/-- token.ts `FlowMetrics`: the cumulative token-flow metrics object. -/
structure FlowMetrics where
  totalTransfers : Nat
  totalVolume : Nat
  uniqueAddresses : List String
  largeTransfers : List LargeTransfer
  burnTransactions : List BurnTx
  topSenders : List SenderStat
  topReceivers : List ReceiverStat
  volumeByTimeframe : VolumeByTimeframe
  transferPatterns : TransferPatterns
  processedTransactionHashes : List String
  deriving Repr, DecidableEq, Inhabited

/-- token.ts `TokenConfig.thresholds`. -/
structure Thresholds where
  largeTransfer : Nat
  whalePercentage : Nat
  volumeSpike : Int
  deriving Repr, DecidableEq, Inhabited

/-- token.ts `TokenConfig`. -/
structure TokenConfig where
  address : String
  name : String
  symbol : String
  thresholds : Thresholds
  watchedAddresses : List String
  deriving Repr, DecidableEq, Inhabited

/-- Metadata stored with each MemeCoinSnapshot (fields used by claims). -/
structure AnalysisMetadata where
  transactionsAnalyzed : Nat
  newTransactionsThisBatch : Nat
  cumulativeTransactions : Nat
  dataQuality : String
  deriving Repr, DecidableEq, Inhabited

/-- The persisted `MemeCoinSnapshot` document. -/
structure MemeCoinSnapshot where
  tokenAddress : String
  network : String
  tokenInfo : TokenInfo
  timestamp : Int
  flowMetrics : FlowMetrics
  alerts : List Alert
  riskScore : Nat
  analysisMetadata : AnalysisMetadata
  deriving Repr, DecidableEq, Inhabited

/-- token.ts `BURN_ADDRESS`. -/
def BURN_ADDRESS : String := "0x0000000000000000000000000000000000000000"

/-- token.ts `getNewTransactions`: drop transactions whose hash appears in
the prior snapshot's `processedTransactionHashes` list. -/
def getNewTransactions (latestTransactions : List Tx)
    (previousSnapshot : Option MemeCoinSnapshot) : List Tx :=
  match previousSnapshot with
  | none => latestTransactions
  | some p =>
    latestTransactions.filter
      (fun tx => !(p.flowMetrics.processedTransactionHashes.contains tx.txHash))

/-- token.ts `mergeSenderReceiverMetrics`: seed per-address (totalSent,
count) / (totalReceived, count) maps from the prior top lists, then fold the
new successful transactions into them. -/
def mergeSenderReceiverMetrics (newTransactions : List Tx)
    (previousMetrics : Option FlowMetrics) :
    AList (Nat × Nat) × AList (Nat × Nat) :=
  let senderInit : AList (Nat × Nat) :=
    match previousMetrics with
    | none => []
    | some m =>
      m.topSenders.foldl
        (fun acc s => alSet acc (jsToLower s.address) (s.totalSent, s.transactionCount)) []
  let receiverInit : AList (Nat × Nat) :=
    match previousMetrics with
    | none => []
    | some m =>
      m.topReceivers.foldl
        (fun acc r => alSet acc (jsToLower r.address) (r.totalReceived, r.transactionCount)) []
  newTransactions.foldl
    (fun (acc : AList (Nat × Nat) × AList (Nat × Nat)) tx =>
      if !tx.status then acc
      else
        let sender := (jsToLower tx.from_)
        let receiver := (jsToLower tx.to_)
        let senderMetrics :=
          match alFind acc.1 sender with
          | some m => alSet acc.1 sender (m.1 + tx.value, m.2 + 1)
          | none => alSet acc.1 sender (tx.value, 1)
        let receiverMetrics :=
          match alFind acc.2 receiver with
          | some m => alSet acc.2 receiver (m.1 + tx.value, m.2 + 1)
          | none => alSet acc.2 receiver (tx.value, 1)
        (senderMetrics, receiverMetrics))
    (senderInit, receiverInit)

/-- Accumulator of the per-transaction loop in `analyzeCumulativeFlows`. -/
structure FlowScan where
  uniqueAddresses : List String
  newVolume : Nat
  newLargeTransfers : List LargeTransfer
  newBurnTransactions : List BurnTx
  newTransferSizes : List Nat
  volume1h : Nat
  volume6h : Nat
  volume24h : Nat
  deriving Repr, DecidableEq, Inhabited

/-- One iteration of the `newTransactions.forEach` loop in
`analyzeCumulativeFlows` (failed transactions are skipped). -/
def flowScanStep (config : TokenConfig) (now : Int) (acc : FlowScan) (tx : Tx) :
    FlowScan :=
  if !tx.status then acc
  else
    { uniqueAddresses := setAdd (setAdd acc.uniqueAddresses (jsToLower tx.from_)) (jsToLower tx.to_)
      newVolume := acc.newVolume + tx.value
      newLargeTransfers :=
        if tx.value ≥ config.thresholds.largeTransfer then
          acc.newLargeTransfers ++
            [{ txHash := tx.txHash, from_ := tx.from_, to_ := tx.to_,
               value := tx.value, timestamp := tx.timestamp }]
        else acc.newLargeTransfers
      newBurnTransactions :=
        if (jsToLower tx.to_) == (jsToLower BURN_ADDRESS) then
          acc.newBurnTransactions ++
            [{ txHash := tx.txHash, from_ := tx.from_,
               value := tx.value, timestamp := tx.timestamp }]
        else acc.newBurnTransactions
      newTransferSizes := acc.newTransferSizes ++ [tx.value]
      volume1h := acc.volume1h + (if tx.timestamp ≥ now - 3600000 then tx.value else 0)
      volume6h := acc.volume6h + (if tx.timestamp ≥ now - 21600000 then tx.value else 0)
      volume24h := acc.volume24h + (if tx.timestamp ≥ now - 86400000 then tx.value else 0) }

/-- token.ts `analyzeCumulativeFlows`: merge the deduplicated new
transactions with the prior snapshot's metrics into the next `FlowMetrics`. -/
def analyzeCumulativeFlows (newTransactions : List Tx) (config : TokenConfig)
    (previousSnapshot : Option MemeCoinSnapshot) (now : Int) : FlowMetrics :=
  let previousMetrics := previousSnapshot.map (fun s => s.flowMetrics)
  let maps := mergeSenderReceiverMetrics newTransactions previousMetrics
  let init : FlowScan :=
    { uniqueAddresses := (previousMetrics.map (fun m => m.uniqueAddresses)).getD []
      newVolume := 0
      newLargeTransfers := []
      newBurnTransactions := []
      newTransferSizes := []
      volume1h := (previousMetrics.map (fun m => m.volumeByTimeframe.last1h)).getD 0
      volume6h := (previousMetrics.map (fun m => m.volumeByTimeframe.last6h)).getD 0
      volume24h := (previousMetrics.map (fun m => m.volumeByTimeframe.last24h)).getD 0 }
  let scan := newTransactions.foldl (flowScanStep config now) init
  let allLargeTransfers :=
    (scan.newLargeTransfers ++
      ((previousMetrics.map (fun m => m.largeTransfers.take 50)).getD [])).take 100
  let allBurnTransactions :=
    (scan.newBurnTransactions ++
      ((previousMetrics.map (fun m => m.burnTransactions.take 50)).getD [])).take 100
  let previousTotalVolume := (previousMetrics.map (fun m => m.totalVolume)).getD 0
  let cumulativeTotalVolume := previousTotalVolume + scan.newVolume
  let previousTransferCount := (previousMetrics.map (fun m => m.totalTransfers)).getD 0
  let cumulativeTotalTransfers := previousTransferCount + newTransactions.length
  let topSenders :=
    ((sortByDesc (fun p => (p.2.1 : Int)) maps.1).take 10).map
      (fun p => { address := p.1, totalSent := p.2.1, transactionCount := p.2.2 : SenderStat })
  let topReceivers :=
    ((sortByDesc (fun p => (p.2.1 : Int)) maps.2).take 10).map
      (fun p => { address := p.1, totalReceived := p.2.1, transactionCount := p.2.2 : ReceiverStat })
  let avgTransferSize :=
    if cumulativeTotalTransfers > 0 then cumulativeTotalVolume / cumulativeTotalTransfers else 0
  let sortedNewSizes := sortAscNat scan.newTransferSizes
  let medianTransferSize :=
    if sortedNewSizes.length > 0 then sortedNewSizes.getD (sortedNewSizes.length / 2) 0
    else (previousMetrics.map (fun m => m.transferPatterns.medianTransferSize)).getD 0
  let processedTransactionHashes :=
    (newTransactions.map (fun tx => tx.txHash) ++
      ((previousMetrics.map (fun m => m.processedTransactionHashes)).getD [])).take 1000
  { totalTransfers := cumulativeTotalTransfers
    totalVolume := cumulativeTotalVolume
    uniqueAddresses := scan.uniqueAddresses
    largeTransfers := allLargeTransfers
    burnTransactions := allBurnTransactions
    topSenders := topSenders
    topReceivers := topReceivers
    volumeByTimeframe :=
      { last1h := scan.volume1h, last6h := scan.volume6h, last24h := scan.volume24h }
    transferPatterns :=
      { avgTransferSize := avgTransferSize
        medianTransferSize := medianTransferSize
        transferFrequency := newTransactions.length }
    processedTransactionHashes := processedTransactionHashes }

/-- token.ts `detectAlerts`: the six fixed token alert rules, in source
order. `Number(sender.totalSent) / sender.transactionCount < 100` is the
exact inequality `totalSent < 100 * transactionCount`. -/
def detectAlerts (metrics : FlowMetrics) (config : TokenConfig)
    (previousSnapshot : Option MemeCoinSnapshot) (newTransactions : List Tx)
    (now : Int) : List Alert :=
  let oneHourAgo := now - 3600000
  let recentLargeTransfers := metrics.largeTransfers.filter (fun t => t.timestamp ≥ oneHourAgo)
  let a1 : List Alert :=
    if recentLargeTransfers.length > 0 then [{ type_ := "LARGE_TRANSFER", severity := "HIGH" }]
    else []
  let recentBurns := metrics.burnTransactions.filter (fun b => b.timestamp ≥ oneHourAgo)
  let a2 : List Alert :=
    if recentBurns.length > 0 then [{ type_ := "BURN_DETECTED", severity := "MEDIUM" }] else []
  let whaleThreshold := config.thresholds.largeTransfer * 10
  let whaleMovements := metrics.topSenders.filter (fun s => s.totalSent ≥ whaleThreshold)
  let a3 : List Alert :=
    if whaleMovements.length > 0 then [{ type_ := "WHALE_MOVEMENT", severity := "HIGH" }] else []
  let a4 : List Alert :=
    match previousSnapshot with
    | none => []
    | some p =>
      let currentVolume : Int := metrics.volumeByTimeframe.last24h
      let previousVolume : Int := p.flowMetrics.volumeByTimeframe.last24h
      if previousVolume > 0 &&
          Int.tdiv ((currentVolume - previousVolume) * 100) previousVolume >
            config.thresholds.volumeSpike then
        [{ type_ := "VOLUME_SPIKE", severity := "MEDIUM" }]
      else []
  let suspiciousPatterns :=
    metrics.topSenders.filter
      (fun s => s.transactionCount > 100 && s.totalSent < 100 * s.transactionCount)
  let a5 : List Alert :=
    if suspiciousPatterns.length > 0 then [{ type_ := "SUSPICIOUS_PATTERN", severity := "MEDIUM" }]
    else []
  let watchedActivity :=
    newTransactions.filter
      (fun tx => config.watchedAddresses.any
        (fun addr => (jsToLower addr) == (jsToLower tx.from_) || (jsToLower addr) == (jsToLower tx.to_)))
  let a6 : List Alert :=
    if watchedActivity.length > 0 then
      [{ type_ := "WATCHED_WALLET_ACTIVITY", severity := "LOW" }]
    else []
  a1 ++ a2 ++ a3 ++ a4 ++ a5 ++ a6

/-- token.ts `calculateRiskScore` (token flavour): base 1, plus recent
large-transfer tier, top-sender concentration tier, 2/1 per HIGH/MEDIUM
alert, and a transfer-frequency bonus, capped at 10. -/
def calculateRiskScore (metrics : FlowMetrics) (alerts : List Alert) (now : Int) : Nat :=
  let recentLargeTransfers := metrics.largeTransfers.filter (fun t => t.timestamp ≥ now - 3600000)
  let r1 : Nat :=
    if recentLargeTransfers.length > 5 then 2
    else if recentLargeTransfers.length > 0 then 1 else 0
  let r2 : Nat :=
    if metrics.totalVolume > 0 then
      let topSenderVolume := ((metrics.topSenders.head?).map (fun s => s.totalSent)).getD 0
      let concentration := topSenderVolume * 100 / metrics.totalVolume
      if concentration > 50 then 2 else if concentration > 25 then 1 else 0
    else 0
  let r3 := 2 * (alerts.filter (fun a => a.severity == "HIGH")).length +
    (alerts.filter (fun a => a.severity == "MEDIUM")).length
  let r4 : Nat := if metrics.transferPatterns.transferFrequency > 20 then 1 else 0
  min (1 + r1 + r2 + r3 + r4) 10

/-- token.ts `analyzeCoinFlows`, as a pure function of the fetched page,
the prior snapshot and `now`. A failed fetch is represented by an empty
page (the source's `fetchLatestTransactions` catches every error and
returns `{transactions: [], tokenInfo: null}`); `tokenInfo` is derived from
the first fetched row exactly as in `fetchLatestTransactions`
(`transactions[0]?.token || null`). -/
def analyzeCoinFlows (config : TokenConfig) (network : String)
    (latestTransactions : List Tx) (previousSnapshot : Option MemeCoinSnapshot)
    (now : Int) : CycleResult MemeCoinSnapshot :=
  if !(isValidEthereumAddress config.address) then .fail "INVALID_ADDRESS_FORMAT"
  else
    match latestTransactions.head?.map (fun tx => tx.token) with
    | none => .fail "Could not fetch token info"
    | some tokenInfo =>
      let newTransactions := getNewTransactions latestTransactions previousSnapshot
      if newTransactions.isEmpty then .nullResult
      else
        let flowMetrics := analyzeCumulativeFlows newTransactions config previousSnapshot now
        let alerts := detectAlerts flowMetrics config previousSnapshot newTransactions now
        let riskScore := calculateRiskScore flowMetrics alerts now
        .saved
          { tokenAddress := config.address
            network := network
            tokenInfo := tokenInfo
            timestamp := now
            flowMetrics := flowMetrics
            alerts := alerts
            riskScore := riskScore
            analysisMetadata :=
              { transactionsAnalyzed := latestTransactions.length
                newTransactionsThisBatch := newTransactions.length
                cumulativeTransactions := flowMetrics.totalTransfers
                dataQuality :=
                  if flowMetrics.totalTransfers > 100 then "COMPLETE"
                  else if flowMetrics.totalTransfers > 10 then "PARTIAL"
                  else "LIMITED" } }

end Token

namespace NFT

/-- nft.ts `NFTTokenInfo`. -/
structure NFTTokenInfo where
  hash : String
  name : String
  symbol : String
  deriving Repr, DecidableEq, Inhabited

/-- nft.ts `NFTTransaction` (an ERC-721 transfer row from the feed). -/
structure NFTTx where
  timestamp : Int
  from_ : String
  to_ : String
  tokenItemId : String
  txHash : String
  status : Bool
  fee : Nat
  token : NFTTokenInfo
  deriving Repr, DecidableEq, Inhabited

/-- Entry of `NFTMovementMetrics.transferHistory`. -/
structure TransferRec where
  tokenId : String
  from_ : String
  to_ : String
  txHash : String
  timestamp : Int
  fee : Nat
  deriving Repr, DecidableEq, Inhabited

/-- Entry of `NFTMovementMetrics.mintTransactions`. -/
structure MintRec where
  tokenId : String
  to_ : String
  txHash : String
  timestamp : Int
  fee : Nat
  deriving Repr, DecidableEq, Inhabited

/-- Entry of `NFTMovementMetrics.burnTransactions`. -/
structure BurnRec where
  tokenId : String
  from_ : String
  txHash : String
  timestamp : Int
  fee : Nat
  deriving Repr, DecidableEq, Inhabited

/-- Entry of `NFTMovementMetrics.topHolders`. -/
structure HolderStat where
  address : String
  tokenCount : Nat
  tokensOwned : List String
  deriving Repr, DecidableEq, Inhabited

/-- Entry of `NFTMovementMetrics.mostActiveTraders`. -/
structure TraderStat where
  address : String
  totalTransfers : Nat
  uniqueTokensTraded : Nat
  deriving Repr, DecidableEq, Inhabited

/-- `NFTMovementMetrics.transfersByTimeframe`. -/
structure TransfersByTimeframe where
  last1h : Nat
  last6h : Nat
  last24h : Nat
  deriving Repr, DecidableEq, Inhabited

/-- Entry of `movementPatterns.mostTradedTokens`. -/
structure MostTraded where
  tokenId : String
  transferCount : Nat
  uniqueOwners : Nat
  deriving Repr, DecidableEq, Inhabited

/-- `NFTMovementMetrics.movementPatterns`. -/
structure MovementPatterns where
  avgHoldingTime : Nat
  mostTradedTokens : List MostTraded
  transferFrequency : Nat
  flippingActivity : Nat
  deriving Repr, DecidableEq, Inhabited

/-- `priceAnalysis.feeDistribution`. -/
structure FeeDistribution where
  low : Nat
  medium : Nat
  high : Nat
  deriving Repr, DecidableEq, Inhabited

/-- `NFTMovementMetrics.priceAnalysis`. -/
structure PriceAnalysis where
  avgTransactionFee : Nat
  totalFeesGenerated : Nat
  feeDistribution : FeeDistribution
  deriving Repr, DecidableEq, Inhabited

/-- nft.ts `NFTMovementMetrics`. `currentHolders` is the tokenId → owner
object, kept in insertion order (the numeric-key reordering of JS object
enumeration affects only orderings among ties, immaterial to the claims). -/
structure NFTMovementMetrics where
  totalTransfers : Nat
  uniqueHolders : List String
  currentHolders : AList String
  transferHistory : List TransferRec
  mintTransactions : List MintRec
  burnTransactions : List BurnRec
  topHolders : List HolderStat
  mostActiveTraders : List TraderStat
  transfersByTimeframe : TransfersByTimeframe
  movementPatterns : MovementPatterns
  priceAnalysis : PriceAnalysis
  processedTransactionHashes : List String
  deriving Repr, DecidableEq, Inhabited

/-- nft.ts `NFTConfig.thresholds`. -/
structure NFTThresholds where
  massTransferCount : Nat
  whaleTokenCount : Nat
  suspiciousMintRate : Nat
  highActivitySpike : Int
  deriving Repr, DecidableEq, Inhabited

/-- nft.ts `NFTConfig`. -/
structure NFTConfig where
  address : String
  name : String
  symbol : String
  thresholds : NFTThresholds
  watchedAddresses : List String
  deriving Repr, DecidableEq, Inhabited

/-- Metadata stored with each NFTSnapshot (fields used by claims). -/
structure NFTAnalysisMetadata where
  transactionsAnalyzed : Nat
  newTransactionsThisBatch : Nat
  cumulativeTransactions : Nat
  uniqueTokensTracked : Nat
  uniqueHoldersCount : Nat
  dataQuality : String
  deriving Repr, DecidableEq, Inhabited

/-- The persisted `NFTSnapshot` document. -/
structure NFTSnapshot where
  tokenAddress : String
  network : String
  tokenInfo : NFTTokenInfo
  timestamp : Int
  movementMetrics : NFTMovementMetrics
  alerts : List Alert
  riskScore : Nat
  analysisMetadata : NFTAnalysisMetadata
  deriving Repr, DecidableEq, Inhabited

/-- nft.ts `ZERO_ADDRESS`. -/
def ZERO_ADDRESS : String := "0x0000000000000000000000000000000000000000"

/-- nft.ts `getNewNFTTransactions`. -/
def getNewNFTTransactions (latestTransactions : List NFTTx)
    (previousSnapshot : Option NFTSnapshot) : List NFTTx :=
  match previousSnapshot with
  | none => latestTransactions
  | some p =>
    latestTransactions.filter
      (fun tx => !(p.movementMetrics.processedTransactionHashes.contains tx.txHash))

/-- nft.ts `updateHolderMetrics`. The holder-stats map is seeded from the
prior `topHolders` but then emptied (`holderStats.clear()`) and rebuilt from
`currentHolders` excluding the zero address, so the rebuilt map is computed
directly. Returns `(currentHolders, holderStats, traderStats)` with trader
stats as (totalTransfers, uniqueTokens-set). -/
def updateHolderMetrics (newTransactions : List NFTTx)
    (previousMetrics : Option NFTMovementMetrics) :
    AList String × AList (Nat × List String) × AList (Nat × List String) :=
  let holdersInit : AList String := (previousMetrics.map (fun m => m.currentHolders)).getD []
  let tradersInit : AList (Nat × List String) :=
    match previousMetrics with
    | none => []
    | some m =>
      m.mostActiveTraders.foldl
        (fun acc t => alSet acc (jsToLower t.address) (t.totalTransfers, [])) []
  let step := fun (acc : AList String × AList (Nat × List String)) (tx : NFTTx) =>
    if !tx.status then acc
    else
      let tokenId := tx.tokenItemId
      let from_ := (jsToLower tx.from_)
      let to_ := (jsToLower tx.to_)
      let currentHolders := alSet acc.1 tokenId to_
      let traders1 :=
        if from_ != (jsToLower ZERO_ADDRESS) then
          let fromStats := (alFind acc.2 from_).getD (0, [])
          alSet acc.2 from_ (fromStats.1 + 1, setAdd fromStats.2 tokenId)
        else acc.2
      let traders2 :=
        if to_ != (jsToLower ZERO_ADDRESS) then
          let toStats := (alFind traders1 to_).getD (0, [])
          alSet traders1 to_ (toStats.1 + 1, setAdd toStats.2 tokenId)
        else traders1
      (currentHolders, traders2)
  let scanned := newTransactions.foldl step (holdersInit, tradersInit)
  let holderStats : AList (Nat × List String) :=
    scanned.1.foldl
      (fun acc entry =>
        if entry.2 != (jsToLower ZERO_ADDRESS) then
          let stats := (alFind acc entry.2).getD (0, [])
          alSet acc entry.2 (stats.1 + 1, stats.2 ++ [entry.1])
        else acc) []
  (scanned.1, holderStats, scanned.2)

/-- Accumulator of the per-transaction loop in
`analyzeCumulativeNFTMovements`. -/
structure NFTScan where
  uniqueHolders : List String
  newTransferHistory : List TransferRec
  newMintTransactions : List MintRec
  newBurnTransactions : List BurnRec
  tokenTransferCounts : AList Nat
  transfers1h : Nat
  transfers6h : Nat
  transfers24h : Nat
  totalFees : Nat
  feeDistribution : FeeDistribution
  flippingCount : Nat
  deriving Repr, DecidableEq, Inhabited

/-- One iteration of the `newTransactions.forEach` loop in
`analyzeCumulativeNFTMovements` (failed transactions are skipped).
`Number(fee)` bucket cutoffs `1e15` and `1e16` are the exact integers. -/
def nftScanStep (now : Int) (acc : NFTScan) (tx : NFTTx) : NFTScan :=
  if !tx.status then acc
  else
    let oneDayAgo := now - 86400000
    let isMint := (jsToLower tx.from_) == (jsToLower ZERO_ADDRESS)
    let isBurn := !isMint && (jsToLower tx.to_) == (jsToLower ZERO_ADDRESS)
    { uniqueHolders := setAdd (setAdd acc.uniqueHolders (jsToLower tx.from_)) (jsToLower tx.to_)
      newTransferHistory :=
        if !isMint && !isBurn then
          acc.newTransferHistory ++
            [{ tokenId := tx.tokenItemId, from_ := tx.from_, to_ := tx.to_,
               txHash := tx.txHash, timestamp := tx.timestamp, fee := tx.fee }]
        else acc.newTransferHistory
      newMintTransactions :=
        if isMint then
          acc.newMintTransactions ++
            [{ tokenId := tx.tokenItemId, to_ := tx.to_, txHash := tx.txHash,
               timestamp := tx.timestamp, fee := tx.fee }]
        else acc.newMintTransactions
      newBurnTransactions :=
        if isBurn then
          acc.newBurnTransactions ++
            [{ tokenId := tx.tokenItemId, from_ := tx.from_, txHash := tx.txHash,
               timestamp := tx.timestamp, fee := tx.fee }]
        else acc.newBurnTransactions
      tokenTransferCounts :=
        alSet acc.tokenTransferCounts tx.tokenItemId
          ((alFind acc.tokenTransferCounts tx.tokenItemId).getD 0 + 1)
      transfers1h := acc.transfers1h + (if tx.timestamp ≥ now - 3600000 then 1 else 0)
      transfers6h := acc.transfers6h + (if tx.timestamp ≥ now - 21600000 then 1 else 0)
      transfers24h := acc.transfers24h + (if tx.timestamp ≥ oneDayAgo then 1 else 0)
      totalFees := acc.totalFees + tx.fee
      feeDistribution :=
        if tx.fee < 10 ^ 15 then { acc.feeDistribution with low := acc.feeDistribution.low + 1 }
        else if tx.fee < 10 ^ 16 then
          { acc.feeDistribution with medium := acc.feeDistribution.medium + 1 }
        else { acc.feeDistribution with high := acc.feeDistribution.high + 1 }
      flippingCount :=
        acc.flippingCount +
          (if !isMint && !isBurn && tx.timestamp ≥ oneDayAgo then 1 else 0) }

/-- nft.ts `analyzeCumulativeNFTMovements`: merge the deduplicated new
transactions with the prior snapshot's metrics into the next
`NFTMovementMetrics`. -/
def analyzeCumulativeNFTMovements (newTransactions : List NFTTx)
    (previousSnapshot : Option NFTSnapshot) (now : Int) : NFTMovementMetrics :=
  let previousMetrics := previousSnapshot.map (fun s => s.movementMetrics)
  let holderData := updateHolderMetrics newTransactions previousMetrics
  let currentHolders := holderData.1
  let holderStats := holderData.2.1
  let traderStats := holderData.2.2
  let init : NFTScan :=
    { uniqueHolders := (previousMetrics.map (fun m => m.uniqueHolders)).getD []
      newTransferHistory := []
      newMintTransactions := []
      newBurnTransactions := []
      tokenTransferCounts := []
      transfers1h := (previousMetrics.map (fun m => m.transfersByTimeframe.last1h)).getD 0
      transfers6h := (previousMetrics.map (fun m => m.transfersByTimeframe.last6h)).getD 0
      transfers24h := (previousMetrics.map (fun m => m.transfersByTimeframe.last24h)).getD 0
      totalFees := (previousMetrics.map (fun m => m.priceAnalysis.totalFeesGenerated)).getD 0
      feeDistribution :=
        (previousMetrics.map (fun m => m.priceAnalysis.feeDistribution)).getD
          { low := 0, medium := 0, high := 0 }
      flippingCount := 0 }
  let scan := newTransactions.foldl (nftScanStep now) init
  let allTransferHistory :=
    (scan.newTransferHistory ++
      ((previousMetrics.map (fun m => m.transferHistory.take 500)).getD [])).take 1000
  let allMintTransactions :=
    (scan.newMintTransactions ++
      ((previousMetrics.map (fun m => m.mintTransactions.take 200)).getD [])).take 500
  let allBurnTransactions :=
    (scan.newBurnTransactions ++
      ((previousMetrics.map (fun m => m.burnTransactions.take 200)).getD [])).take 500
  let previousTotalTransfers := (previousMetrics.map (fun m => m.totalTransfers)).getD 0
  let cumulativeTotalTransfers := previousTotalTransfers + newTransactions.length
  let topHolders :=
    ((sortByDesc (fun p => (p.2.1 : Int)) holderStats).take 10).map
      (fun p => { address := p.1, tokenCount := p.2.1, tokensOwned := p.2.2 : HolderStat })
  let mostActiveTraders :=
    ((sortByDesc (fun p => (p.2.1 : Int)) traderStats).take 10).map
      (fun p =>
        { address := p.1, totalTransfers := p.2.1,
          uniqueTokensTraded := p.2.2.length : TraderStat })
  let mostTradedTokens :=
    ((sortByDesc (fun p => (p.2 : Int)) scan.tokenTransferCounts).take 10).map
      (fun p =>
        let uniqueOwners :=
          (allTransferHistory.filter (fun t => t.tokenId == p.1)).foldl
            (fun acc t => setAdd (setAdd acc t.from_) t.to_) []
        { tokenId := p.1, transferCount := p.2, uniqueOwners := uniqueOwners.length : MostTraded })
  let avgFee :=
    if newTransactions.length > 0 then scan.totalFees / max cumulativeTotalTransfers 1 else 0
  let processedTransactionHashes :=
    (newTransactions.map (fun tx => tx.txHash) ++
      ((previousMetrics.map (fun m => m.processedTransactionHashes)).getD [])).take 2000
  { totalTransfers := cumulativeTotalTransfers
    uniqueHolders := scan.uniqueHolders
    currentHolders := currentHolders
    transferHistory := allTransferHistory
    mintTransactions := allMintTransactions
    burnTransactions := allBurnTransactions
    topHolders := topHolders
    mostActiveTraders := mostActiveTraders
    transfersByTimeframe :=
      { last1h := scan.transfers1h, last6h := scan.transfers6h, last24h := scan.transfers24h }
    movementPatterns :=
      { avgHoldingTime := 168
        mostTradedTokens := mostTradedTokens
        transferFrequency := newTransactions.length
        flippingActivity := scan.flippingCount }
    priceAnalysis :=
      { avgTransactionFee := avgFee
        totalFeesGenerated := scan.totalFees
        feeDistribution := scan.feeDistribution }
    processedTransactionHashes := processedTransactionHashes }

/-- nft.ts `detectNFTAlerts`: the six fixed NFT alert rules, in source
order; the activity-spike percentage is exact rational arithmetic. -/
def detectNFTAlerts (metrics : NFTMovementMetrics) (config : NFTConfig)
    (previousSnapshot : Option NFTSnapshot) (newTransactions : List NFTTx)
    (now : Int) : List Alert :=
  let a1 : List Alert :=
    if metrics.transfersByTimeframe.last1h > config.thresholds.massTransferCount then
      [{ type_ := "MASS_TRANSFER", severity := "HIGH" }]
    else []
  let whales := metrics.topHolders.filter (fun h => h.tokenCount ≥ config.thresholds.whaleTokenCount)
  let a2 : List Alert :=
    if whales.length > 0 then [{ type_ := "WHALE_ACCUMULATION", severity := "MEDIUM" }] else []
  let recentMints := metrics.mintTransactions.filter (fun m => m.timestamp ≥ now - 3600000)
  let a3 : List Alert :=
    if recentMints.length > config.thresholds.suspiciousMintRate then
      [{ type_ := "SUSPICIOUS_MINTING", severity := "HIGH" }]
    else []
  let a4 : List Alert :=
    match previousSnapshot with
    | none => []
    | some p =>
      let currentActivity := JSNum.ofNat metrics.transfersByTimeframe.last24h
      let previousActivity := JSNum.ofNat p.movementMetrics.transfersByTimeframe.last24h
      let activityChangePercent :=
        JSNum.mul (JSNum.div (JSNum.sub currentActivity previousActivity) previousActivity)
          (JSNum.ofNat 100)
      if p.movementMetrics.transfersByTimeframe.last24h > 0 &&
          JSNum.lt (JSNum.ofInt config.thresholds.highActivitySpike) activityChangePercent then
        [{ type_ := "HIGH_ACTIVITY_SPIKE", severity := "MEDIUM" }]
      else []
  let potentialWashTrading :=
    metrics.mostActiveTraders.filter
      (fun t => t.totalTransfers > 20 && t.uniqueTokensTraded < 3)
  let a5 : List Alert :=
    if potentialWashTrading.length > 0 then [{ type_ := "WASH_TRADING", severity := "MEDIUM" }]
    else []
  let watchedActivity :=
    newTransactions.filter
      (fun tx => config.watchedAddresses.any
        (fun addr => (jsToLower addr) == (jsToLower tx.from_) || (jsToLower addr) == (jsToLower tx.to_)))
  let a6 : List Alert :=
    if watchedActivity.length > 0 then
      [{ type_ := "WATCHED_WALLET_ACTIVITY", severity := "LOW" }]
    else []
  a1 ++ a2 ++ a3 ++ a4 ++ a5 ++ a6

/-- nft.ts `calculateNFTRiskScore`: hourly-density tier, top-holder
concentration tier, 24 h mint-volume tier, 2/1 per HIGH/MEDIUM alert, and a
flipping bonus, capped at 10; concentration is exact rational arithmetic. -/
def calculateNFTRiskScore (metrics : NFTMovementMetrics) (alerts : List Alert)
    (now : Int) : Nat :=
  let r1 : Nat :=
    if metrics.transfersByTimeframe.last1h > 50 then 3
    else if metrics.transfersByTimeframe.last1h > 20 then 2
    else if metrics.transfersByTimeframe.last1h > 10 then 1 else 0
  let r2 : Nat :=
    match metrics.topHolders.head? with
    | none => 0
    | some top =>
      let totalSupply := JSNum.ofNat metrics.currentHolders.length
      let concentration :=
        JSNum.mul (JSNum.div (JSNum.ofNat top.tokenCount) totalSupply) (JSNum.ofNat 100)
      if JSNum.lt (JSNum.ofNat 50) concentration then 2
      else if JSNum.lt (JSNum.ofNat 25) concentration then 1 else 0
  let recentMints := metrics.mintTransactions.filter (fun m => m.timestamp ≥ now - 86400000)
  let r3 : Nat :=
    if recentMints.length > 100 then 2 else if recentMints.length > 50 then 1 else 0
  let r4 := 2 * (alerts.filter (fun a => a.severity == "HIGH")).length +
    (alerts.filter (fun a => a.severity == "MEDIUM")).length
  let r5 : Nat := if metrics.movementPatterns.flippingActivity > 20 then 1 else 0
  min (1 + r1 + r2 + r3 + r4 + r5) 10

/-- nft.ts `analyzeNFTMovements` as a pure function of the fetched page, the
prior snapshot and `now`; like the token analyzer, a failed fetch is an
empty page and `tokenInfo` is `transactions[0]?.token || null`. -/
def analyzeNFTMovements (config : NFTConfig) (network : String)
    (latestTransactions : List NFTTx) (previousSnapshot : Option NFTSnapshot)
    (now : Int) : CycleResult NFTSnapshot :=
  if !(isValidEthereumAddress config.address) then .fail "INVALID_ADDRESS_FORMAT"
  else
    match latestTransactions.head?.map (fun tx => tx.token) with
    | none => .fail "Could not fetch NFT token info"
    | some tokenInfo =>
      let newTransactions := getNewNFTTransactions latestTransactions previousSnapshot
      if newTransactions.isEmpty then .nullResult
      else
        let movementMetrics := analyzeCumulativeNFTMovements newTransactions previousSnapshot now
        let alerts := detectNFTAlerts movementMetrics config previousSnapshot newTransactions now
        let riskScore := calculateNFTRiskScore movementMetrics alerts now
        .saved
          { tokenAddress := config.address
            network := network
            tokenInfo := tokenInfo
            timestamp := now
            movementMetrics := movementMetrics
            alerts := alerts
            riskScore := riskScore
            analysisMetadata :=
              { transactionsAnalyzed := latestTransactions.length
                newTransactionsThisBatch := newTransactions.length
                cumulativeTransactions := movementMetrics.totalTransfers
                uniqueTokensTracked := movementMetrics.currentHolders.length
                uniqueHoldersCount := movementMetrics.uniqueHolders.length
                dataQuality :=
                  if movementMetrics.totalTransfers > 100 then "COMPLETE"
                  else if movementMetrics.totalTransfers > 10 then "PARTIAL"
                  else "LIMITED" } }

end NFT

namespace Wallet

/-- run.ts `Transaction`: one wallet-history row. `from`, `to`, `data` and
`method` are truthiness-checked in the source, so they are `Option`s (with
the empty string also counting as falsy where the source tests truthiness). -/
structure WalletTx where
  hash : String
  timestamp : Int
  value : Nat
  fee : Nat
  type_ : Nat
  actionType : String
  from_ : Option String
  to_ : Option String
  data : Option String
  method : Option String
  gasPrice : Nat
  gasUsedByTransaction : Nat
  status : Bool
  deriving Repr, DecidableEq, Inhabited

/-- The `defiMethods` method-signature lookup table in
`categorizeTransaction`. -/
def defiMethods (methodId : String) : Option String :=
  if methodId == "0xa9059cbb" then some "ERC20_TRANSFER"
  else if methodId == "0x23b872dd" then some "ERC20_TRANSFER_FROM"
  else if methodId == "0x095ea7b3" then some "ERC20_APPROVE"
  else if methodId == "0x7c025200" then some "UNISWAP_SWAP"
  else if methodId == "0x38ed1739" then some "UNISWAP_SWAP_EXACT_TOKENS"
  else if methodId == "0x8803dbee" then some "UNISWAP_SWAP_TOKENS_SUPPORTING_FEE"
  else if methodId == "0xb6f9de95" then some "SUSHISWAP_SWAP"
  else if methodId == "0xe8e33700" then some "COMPOUND_MINT"
  else if methodId == "0xdb006a75" then some "COMPOUND_REDEEM"
  else if methodId == "0xf2fde38b" then some "OWNERSHIP_TRANSFER"
  else if methodId == "0x42842e0e" then some "NFT_SAFE_TRANSFER_FROM"
  else if methodId == "0xff0d7c2f" then some "CUSTOM_EXECUTION"
  else none

/-- run.ts `categorizeTransaction`. -/
def categorizeTransaction (tx : WalletTx) : String :=
  let dataFalsy := tx.data.isNone || tx.data == some ""
  if dataFalsy || tx.data == some "0x" || tx.data == some "0" then
    if tx.type_ == 0 then "NATIVE_TRANSFER" else "SIMPLE_CONTRACT_CALL"
  else
    let d := tx.data.getD ""
    let methodId :=
      match tx.method with
      | some m => if m == "" then strTake d 10 else m
      | none => strTake d 10
    (defiMethods methodId).getD "UNKNOWN_CONTRACT_INTERACTION"

/-- run.ts `transactionMetrics` accumulator object. -/
structure TransactionMetrics where
  totalIncoming : Nat
  totalOutgoing : Nat
  totalGasUsed : Nat
  totalFeesPaid : Nat
  contractInteractions : Nat
  nativeTransfers : Nat
  executionTransactions : Nat
  uniqueContracts : List String
  transactionCategories : AList Nat
  avgGasPrice : Nat
  avgTransactionValue : Nat
  failedTransactions : Nat
  lastActivityTime : Option Int
  deriving Repr, DecidableEq, Inhabited

/-- The initial `transactionMetrics` value of `createWalletSnapshot`. -/
def initMetrics : TransactionMetrics :=
  { totalIncoming := 0, totalOutgoing := 0, totalGasUsed := 0, totalFeesPaid := 0
    contractInteractions := 0, nativeTransfers := 0, executionTransactions := 0
    uniqueContracts := [], transactionCategories := [], avgGasPrice := 0
    avgTransactionValue := 0, failedTransactions := 0, lastActivityTime := none }

/-- One iteration of the `transactions.forEach` loop in
`createWalletSnapshot`; the second component is the running
`totalTransactionValue`. Failed transactions update only the category
counters, `lastActivityTime` and the failure counter before the early
`return`. -/
def metricsStep (wallet : String) (acc : TransactionMetrics × Nat) (tx : WalletTx) :
    TransactionMetrics × Nat :=
  let m0 := acc.1
  let category := categorizeTransaction tx
  let m1 :=
    { m0 with
      transactionCategories :=
        alSet m0.transactionCategories category
          ((alFind m0.transactionCategories category).getD 0 + 1) }
  let m2 :=
    { m1 with
      lastActivityTime :=
        match m1.lastActivityTime with
        | none => some tx.timestamp
        | some t => if tx.timestamp > t then some tx.timestamp else some t }
  if !tx.status then ({ m2 with failedTransactions := m2.failedTransactions + 1 }, acc.2)
  else
    let isIncoming :=
      match tx.to_ with
      | some t => t != "" && (jsToLower t) == (jsToLower wallet) && tx.value > 0
      | none => false
    let m3 := if isIncoming then { m2 with totalIncoming := m2.totalIncoming + tx.value } else m2
    let isOutgoing :=
      match tx.from_ with
      | some f => f != "" && (jsToLower f) == (jsToLower wallet)
      | none => false
    let m4 :=
      if isOutgoing then
        let withValue :=
          if tx.value > 0 then { m3 with totalOutgoing := m3.totalOutgoing + tx.value } else m3
        { withValue with
          totalFeesPaid := withValue.totalFeesPaid + tx.fee
          totalGasUsed := withValue.totalGasUsed + tx.gasUsedByTransaction }
      else m3
    let totalTransactionValue := if isOutgoing && tx.value > 0 then acc.2 + tx.value else acc.2
    let m5 :=
      if tx.type_ == 0 then { m4 with nativeTransfers := m4.nativeTransfers + 1 }
      else if tx.type_ == 2 then
        let withCount := { m4 with contractInteractions := m4.contractInteractions + 1 }
        match tx.to_ with
        | some t =>
          if t != "" then
            { withCount with uniqueContracts := setAdd withCount.uniqueContracts (jsToLower t) }
          else withCount
        | none => withCount
      else m4
    let m6 :=
      if tx.actionType == "Execute" then
        { m5 with executionTransactions := m5.executionTransactions + 1 }
      else m5
    (m6, totalTransactionValue)

/-- Steps 3 of `createWalletSnapshot`: the transaction scan plus the
average computations over successful transactions. -/
def computeTransactionMetrics (wallet : String) (transactions : List WalletTx) :
    TransactionMetrics :=
  let scanned := transactions.foldl (metricsStep wallet) (initMetrics, 0)
  let successfulTxs := (transactions.filter (fun tx => tx.status)).length
  if successfulTxs > 0 then
    let totalGasPrice :=
      (transactions.filter (fun tx => tx.status)).foldl (fun s tx => s + tx.gasPrice) 0
    { scanned.1 with
      avgGasPrice := totalGasPrice / successfulTxs
      avgTransactionValue := scanned.2 / successfulTxs }
  else scanned.1

/-- run.ts ERC-20 holding row as used by `calculatePortfolioValue`
(`balance` is truthiness-checked: a missing balance is `none`; `decimals`
falls back to 18 when absent or `0`). -/
structure ERC20Token where
  contractAddress : String
  balance : Option Nat
  decimals : Option Nat
  deriving Repr, DecidableEq, Inhabited

/-- run.ts `TokenPrice` row of the static price table (USD prices as exact
rationals). -/
structure TokenPrice where
  symbol : String
  address : String
  price : JSNum
  deriving Repr, DecidableEq, Inhabited

/-- The static `priceData` table in `calculatePortfolioValue`. -/
def priceData : List TokenPrice :=
  [ { symbol := "SEI", address := "native", price := { num := 32, den := 100 } }
  , { symbol := "WSEI", address := "0xdc78b593dd44914c326d1ed37501ead48c4c5628",
      price := { num := 32, den := 100 } }
  , { symbol := "USDC", address := "0x3894085ef7ff0f0aedf52e2a2704928d1ec074f1",
      price := { num := 1, den := 1 } }
  , { symbol := "WETH", address := "0x160345fC359604fC6e70E3c5fAcbdE5F7A9342d8",
      price := { num := 477493, den := 100 } }
  , { symbol := "ASTRO", address := "0x7fa7677c6708f0cd07724d61bfdc6be6bb15d2e7",
      price := { num := 85, den := 1000 } } ]

/-- The computed `portfolioValue` sub-document. -/
structure PortfolioValue where
  totalValue : JSNum
  nativeValue : JSNum
  tokenValue : JSNum
  deriving Repr, DecidableEq, Inhabited

/-- run.ts `calculatePortfolioValue`, with the float arithmetic carried out
exactly over `JSNum` rationals. -/
def calculatePortfolioValue (nativeBalance : Nat) (tokens : List ERC20Token) :
    PortfolioValue :=
  let nativeBalanceNum := JSNum.div (JSNum.ofNat nativeBalance) (JSNum.ofNat (10 ^ 18))
  let seiPrice :=
    (((priceData.find? (fun p => p.symbol == "SEI")).map (fun p => p.price))).getD
      { num := 45, den := 100 }
  let nativeValue := JSNum.mul nativeBalanceNum seiPrice
  let tokenValue :=
    tokens.foldl
      (fun acc t =>
        match priceData.find? (fun p => (jsToLower p.address) == (jsToLower t.contractAddress)) with
        | none => acc
        | some p =>
          match t.balance with
          | none => acc
          | some b =>
            let decimals :=
              match t.decimals with
              | some d => if d == 0 then 18 else d
              | none => 18
            JSNum.add acc
              (JSNum.mul (JSNum.div (JSNum.ofNat b) (JSNum.ofNat (10 ^ decimals))) p.price))
      (JSNum.ofNat 0)
  { totalValue := JSNum.add nativeValue tokenValue, nativeValue := nativeValue,
    tokenValue := tokenValue }

/-- run.ts `calculateRiskScore` (wallet flavour): six pattern-based
indicators over the fetched batch and the merged metrics, base 1, capped at
10. The float average and ratio comparisons are exact over `JSNum`
rationals. Note that this function takes no alerts. -/
def calculateRiskScore (transactions : List WalletTx) (metrics : TransactionMetrics) : Nat :=
  let r1 : Nat := if transactions.length > 50 then 1 else 0
  let largeTransactions := transactions.filter (fun tx => tx.value > 10 ^ 20)
  let r2 : Nat := if largeTransactions.length > 5 then 1 else 0
  let r3 : Nat := if metrics.uniqueContracts.length > 20 then 1 else 0
  let avgGasUsed :=
    JSNum.div (JSNum.ofNat metrics.totalGasUsed) (JSNum.ofNat (max transactions.length 1))
  let r4 : Nat := if JSNum.lt (JSNum.ofNat 200000) avgGasUsed then 1 else 0
  let failedTxs := transactions.filter (fun tx => !tx.status)
  let r5 : Nat :=
    if JSNum.lt (JSNum.mul (JSNum.ofNat transactions.length) { num := 1, den := 10 })
        (JSNum.ofNat failedTxs.length) then 1 else 0
  let zeroValueContractCalls :=
    transactions.filter (fun tx => tx.type_ == 2 && tx.value == 0)
  let r6 : Nat :=
    if JSNum.lt (JSNum.mul (JSNum.ofNat transactions.length) { num := 1, den := 2 })
        (JSNum.ofNat zeroValueContractCalls.length) then 1 else 0
  min (1 + r1 + r2 + r3 + r4 + r5 + r6) 10

/-- `analysisMetadata.serviceStatus` of a wallet snapshot. -/
structure ServiceStatus where
  erc20Tokens : String
  erc721Tokens : String
  transactions : String
  deriving Repr, DecidableEq, Inhabited

/-- `analysisMetadata` of a wallet snapshot (fields used by claims). -/
structure WalletAnalysisMetadata where
  dataQuality : String
  serviceStatus : ServiceStatus
  deriving Repr, DecidableEq, Inhabited

/-- The `WalletSnapshot` document assembled by `createWalletSnapshot`.
`erc20Tokens`/`erc721Tokens` are `none` when the source stored the string
sentinel `"N/A"`; `transactionsAnalyzed` is `-1` in the corresponding
transaction case, exactly as in the source. -/
structure WalletSnapshot where
  walletAddress : String
  network : String
  timestamp : Int
  ethBalance : Nat
  erc20Tokens : Option (List ERC20Token)
  erc721Tokens : Option (List String)
  transactionsAnalyzed : Int
  transactionMetrics : TransactionMetrics
  portfolioValue : PortfolioValue
  riskScore : Nat
  alerts : List Alert
  analysisMetadata : WalletAnalysisMetadata
  deriving Repr, DecidableEq, Inhabited

/-- run.ts `detectAlerts` (wallet flavour): the five fixed wallet alert
rules, in source order; the percentage arithmetic is exact over `JSNum`
rationals. -/
def detectAlerts (transactions : List WalletTx) (metrics : TransactionMetrics)
    (portfolioValue : JSNum) (previousSnapshot : Option WalletSnapshot) : List Alert :=
  let largeTransactions := transactions.filter (fun tx => tx.value > 10 ^ 21)
  let a1 : List Alert :=
    if largeTransactions.length > 0 then [{ type_ := "LARGE_TRANSACTION", severity := "HIGH" }]
    else []
  let a2 : List Alert :=
    if metrics.totalGasUsed > 10 ^ 18 then [{ type_ := "HIGH_GAS_USAGE", severity := "MEDIUM" }]
    else []
  let a3 : List Alert :=
    if metrics.uniqueContracts.length > 10 then
      [{ type_ := "MULTIPLE_CONTRACT_INTERACTIONS", severity := "MEDIUM" }]
    else []
  let a4 : List Alert :=
    match previousSnapshot with
    | none => []
    | some p =>
      let previousValue := p.portfolioValue.totalValue
      let changePercent :=
        JSNum.mul (JSNum.div (JSNum.sub portfolioValue previousValue) (JSNum.max1 previousValue))
          (JSNum.ofNat 100)
      if JSNum.lt (JSNum.ofNat 20) (JSNum.abs changePercent) then
        [{ type_ := "PORTFOLIO_VALUE_CHANGE",
           severity := if JSNum.lt changePercent (JSNum.ofNat 0) then "HIGH" else "MEDIUM" }]
      else []
  let suspiciousPatterns :=
    transactions.filter
      (fun tx =>
        tx.actionType == "Execute" && tx.value == 0 &&
          (match tx.data with
           | some d => d != "" && d.length > 200
           | none => false))
  let a5 : List Alert :=
    if suspiciousPatterns.length > 10 then [{ type_ := "SUSPICIOUS_ACTIVITY", severity := "HIGH" }]
    else []
  a1 ++ a2 ++ a3 ++ a4 ++ a5

/-- Step 6 of `createWalletSnapshot`: merge the freshly computed metrics
with the prior snapshot's metrics (component-wise sums, set union of unique
contracts with the prior entries first, summed category counters). -/
def mergeWithPrevious (finalMetrics : TransactionMetrics)
    (previousSnapshot : Option WalletSnapshot) : TransactionMetrics :=
  match previousSnapshot with
  | none => finalMetrics
  | some p =>
    let prev := p.transactionMetrics
    let mergedContracts :=
      finalMetrics.uniqueContracts.foldl setAdd (prev.uniqueContracts.foldl setAdd [])
    let mergedCategories :=
      prev.transactionCategories.foldl
        (fun acc entry => alSet acc entry.1 ((alFind acc entry.1).getD 0 + entry.2))
        finalMetrics.transactionCategories
    { finalMetrics with
      totalIncoming := finalMetrics.totalIncoming + prev.totalIncoming
      totalOutgoing := finalMetrics.totalOutgoing + prev.totalOutgoing
      totalGasUsed := finalMetrics.totalGasUsed + prev.totalGasUsed
      totalFeesPaid := finalMetrics.totalFeesPaid + prev.totalFeesPaid
      contractInteractions := finalMetrics.contractInteractions + prev.contractInteractions
      nativeTransfers := finalMetrics.nativeTransfers + prev.nativeTransfers
      executionTransactions := finalMetrics.executionTransactions + prev.executionTransactions
      failedTransactions := finalMetrics.failedTransactions + prev.failedTransactions
      uniqueContracts := mergedContracts
      transactionCategories := mergedCategories }

/-- models/WalletSnapshot.ts: the `analysisMetadata.dataQuality` enum of the
wallet-snapshot schema, exactly as declared. -/
def walletDataQualityEnum : List String := ["COMPLETE", "LIMITED", "PARTIAL", "UNAVAILABLE"]

/-- models/WalletSnapshot.ts: the alert `type` enum of the wallet-snapshot
schema. -/
def walletAlertTypeEnum : List String :=
  [ "LARGE_TRANSACTION", "HIGH_GAS_USAGE", "MULTIPLE_CONTRACT_INTERACTIONS"
  , "PORTFOLIO_VALUE_CHANGE", "SUSPICIOUS_ACTIVITY", "NEW_TOKEN_INTERACTION"
  , "UNUSUAL_PATTERN" ]

/-- The alert `severity` enum shared by the schemas. -/
def severityEnum : List String := ["LOW", "MEDIUM", "HIGH"]

/-- The `network` enum shared by the schemas. -/
def networkEnum : List String := ["testnet", "devnet", "mainnet"]

/-- Mongoose document validation run by `snapshot.save()` against the
wallet-snapshot schema: enum membership for `network`, the alert fields and
`analysisMetadata.dataQuality`, the address-format validator (the schema
lower-cases the address first; the regex accepts both cases, so validating
the untransformed value is equivalent), and the 1..10 bounds on
`riskScore`. -/
def validWalletSnapshot (s : WalletSnapshot) : Bool :=
  isValidEthereumAddress s.walletAddress &&
  networkEnum.contains s.network &&
  walletDataQualityEnum.contains s.analysisMetadata.dataQuality &&
  s.alerts.all (fun a => walletAlertTypeEnum.contains a.type_ && severityEnum.contains a.severity) &&
  decide (1 ≤ s.riskScore) && decide (s.riskScore ≤ 10)

/-- run.ts `WalletInfo` as returned by `/accounts/evm/{wallet}` (only the
fields the code reads). -/
structure WalletInfo where
  address : String
  balance : Nat
  deriving Repr, DecidableEq, Inhabited

/-- Outcome of the three upstream fetches performed by
`createWalletSnapshot`: the account-info call (`none` models a thrown
request, with `walletInfo404` recording whether it was an HTTP 404), the
combined ERC-20/ERC-721 holdings calls, and the transaction-page call
(`txFetchOk = false` models all three transaction endpoints failing, the
source's `transactions = "N/A"`). -/
structure FetchResult where
  walletInfo : Option WalletInfo
  walletInfo404 : Bool
  tokensFetchOk : Bool
  erc20Tokens : List ERC20Token
  erc721Tokens : List String
  txFetchOk : Bool
  transactions : List WalletTx
  deriving Repr, DecidableEq, Inhabited

/-- Steps 3–9 of `createWalletSnapshot`: assemble the snapshot document.
When the transaction page is unavailable the source skips the scan and
passes `[]` to the risk and alert functions, which coincides with scanning
the empty list. -/
def buildWalletSnapshot (wallet : String) (network : String) (walletInfo : WalletInfo)
    (fetch : FetchResult) (previousSnapshot : Option WalletSnapshot) (now : Int) :
    WalletSnapshot :=
  let ethBalance := walletInfo.balance
  let txs := if fetch.txFetchOk then fetch.transactions else []
  let transactionMetrics := computeTransactionMetrics wallet txs
  let portfolioData :=
    calculatePortfolioValue ethBalance (if fetch.tokensFetchOk then fetch.erc20Tokens else [])
  let finalMetrics := mergeWithPrevious transactionMetrics previousSnapshot
  let riskScore := calculateRiskScore txs finalMetrics
  let alerts := detectAlerts txs finalMetrics portfolioData.totalValue previousSnapshot
  { walletAddress := wallet
    network := network
    timestamp := now
    ethBalance := ethBalance
    erc20Tokens := if fetch.tokensFetchOk then some fetch.erc20Tokens else none
    erc721Tokens := if fetch.tokensFetchOk then some fetch.erc721Tokens else none
    transactionsAnalyzed := if fetch.txFetchOk then (txs.length : Int) else -1
    transactionMetrics := finalMetrics
    portfolioValue := portfolioData
    riskScore := riskScore
    alerts := alerts
    analysisMetadata :=
      { dataQuality :=
          if !fetch.txFetchOk then "SERVICE_UNAVAILABLE"
          else if txs.length > 0 then "COMPLETE"
          else "LIMITED"
        serviceStatus :=
          { erc20Tokens := if fetch.tokensFetchOk then "SUCCESS" else "FAILED"
            erc721Tokens := if fetch.tokensFetchOk then "SUCCESS" else "FAILED"
            transactions := if fetch.txFetchOk then "SUCCESS" else "FAILED" } } }

/-- run.ts `createWalletSnapshot` as a pure function of the fetch outcomes,
the prior snapshot and `now`. Persisting runs the Mongoose schema
validation (`validWalletSnapshot`); a validation failure rejects the save
and the cycle throws. Note there is no deduplication or no-change
short-circuit anywhere in this analyzer. -/
def createWalletSnapshot (wallet : String) (network : String) (fetch : FetchResult)
    (previousSnapshot : Option WalletSnapshot) (now : Int) : CycleResult WalletSnapshot :=
  if !(isValidEthereumAddress wallet) then .fail "INVALID_ADDRESS_FORMAT"
  else
    match fetch.walletInfo with
    | none => if fetch.walletInfo404 then .fail "WALLET_NOT_FOUND" else .fail "FETCH_ERROR"
    | some walletInfo =>
      if walletInfo.address == "" || (jsToLower walletInfo.address) != (jsToLower wallet) then
        .fail "INVALID_WALLET_ADDRESS"
      else
        let snapshot := buildWalletSnapshot wallet network walletInfo fetch previousSnapshot now
        if validWalletSnapshot snapshot then .saved snapshot
        else .fail "MONGOOSE_VALIDATION_ERROR"

end Wallet

namespace Sched

/-- config/networks.ts `Object.keys(NETWORKS)`. -/
def NETWORK_KEYS : List String := ["testnet", "devnet", "mainnet"]

/-- config/networks.ts `DEFAULT_NETWORK`. -/
def DEFAULT_NETWORK : String := "testnet"

/-- config/networks.ts `isValidNetwork`. -/
def isValidNetwork (network : String) : Bool := NETWORK_KEYS.contains (jsToLower network)

/-- The body of a `POST /jobs` request (routes file, `jobRoutes`).
`payloadPresent` records whether a `payload` field was supplied (its
contents are opaque to submission); `scheduledAt`/`intervalMinutes` are
`none` when absent or otherwise falsy. -/
structure JobRequest where
  action : String
  payloadPresent : Bool
  network : Option String
  type_ : String
  scheduledAt : Option Int
  intervalMinutes : Option Int
  deriving Repr, DecidableEq, Inhabited

/-- JS truthiness of the `intervalMinutes` field (`!intervalMinutes`):
absent or zero. -/
def intervalFalsy : Option Int → Bool
  | none => true
  | some n => n == 0

/-- One `jobQueue.add("jobs", jobData, opts)` call: the fixed delay, the
repetition interval if a `repeat` option was given, and whether the queued
`jobData` carried the `network` field (the worker's re-add omits it). -/
structure QueueAdd where
  action : String
  delay : Int
  repeatEvery : Option Int
  hasNetwork : Bool
  deriving Repr, DecidableEq, Inhabited

/-- models/Job.ts `type` enum. -/
def jobTypeEnum : List String := ["scheduled", "retry"]

/-- Mongoose validation applied by `JobModel.create`: `action` and
`payload` are required, `type` must be in its enum, and the (defaulted)
network must be in the schema's enum (exact match, unlike the route's
lower-casing check). -/
def jobCreateValid (req : JobRequest) (network : String) : Bool :=
  req.action != "" && req.payloadPresent && jobTypeEnum.contains req.type_ &&
    Wallet.networkEnum.contains network

/-- Result of one `POST /jobs` request: the HTTP status (500 models an
error thrown past the handler), whether a Job record now exists in the Job
store, and the queue submissions that succeeded. -/
structure SubmitResult where
  status : Nat
  jobCreated : Bool
  queueAdds : List QueueAdd
  deriving Repr, DecidableEq, Inhabited

/-- The `POST /jobs` handler (routes file): validate network and the
type-specific schedule fields, create the Job record, then enrol the job in
the queue. `queueOk = false` models an unreachable broker: every
`jobQueue.add` throws, the error propagates (500) — but the Job record has
already been created at that point. -/
def submitJob (req : JobRequest) (now : Int) (queueOk : Bool) : SubmitResult :=
  let network := req.network.getD DEFAULT_NETWORK
  if !(isValidNetwork network) then { status := 400, jobCreated := false, queueAdds := [] }
  else if req.type_ == "scheduled" && req.scheduledAt.isNone then
    { status := 400, jobCreated := false, queueAdds := [] }
  else if req.type_ == "retry" && intervalFalsy req.intervalMinutes then
    { status := 400, jobCreated := false, queueAdds := [] }
  else if !(jobCreateValid req network) then
    { status := 500, jobCreated := false, queueAdds := [] }
  else
    if req.type_ == "scheduled" then
      let delayMs := max ((req.scheduledAt.getD 0) - now) 0
      if queueOk then
        { status := 200, jobCreated := true,
          queueAdds :=
            [{ action := req.action, delay := delayMs, repeatEvery := none, hasNetwork := true }] }
      else { status := 500, jobCreated := true, queueAdds := [] }
    else if req.type_ == "retry" then
      let intervalMs := (req.intervalMinutes.getD 0) * 60000
      if queueOk then
        { status := 200, jobCreated := true,
          queueAdds :=
            [ { action := req.action, delay := 0, repeatEvery := none, hasNetwork := true }
            , { action := req.action, delay := intervalMs, repeatEvery := some intervalMs,
                hasNetwork := true } ] }
      else { status := 500, jobCreated := true, queueAdds := [] }
    else { status := 200, jobCreated := true, queueAdds := [] }

/-- The `switch (action)` of the worker's `runTask`: the three dispatchable
actions; any other action throws `Unknown action type`. -/
def knownActions : List String := ["wallet_snapshot", "analyze_coin_flows", "analyze_nft_movements"]

/-- Whether `runTask` returns normally: the action must be known and the
dispatched service call must not throw (`serviceOk`). -/
def runTaskSucceeds (action : String) (serviceOk : Bool) : Bool :=
  knownActions.contains action && serviceOk

/-- The Job-store fields the worker mutates. -/
structure JobDoc where
  status : String
  lastRunAt : Option Int
  nextRunAt : Option Int
  errorSet : Bool
  deriving Repr, DecidableEq, Inhabited

/-- Effect of one worker invocation: the resulting Job document, the queue
submissions made, and the levels of the execution logs appended (in
order). -/
structure WorkerResult where
  doc : JobDoc
  queueAdds : List QueueAdd
  logLevels : List String
  deriving Repr, DecidableEq, Inhabited

/-- The queue handler `jobWorker` (worker file): set status `running` and
log INFO; a scheduled job fired early only logs WARN; otherwise dispatch
through `runTask`. On success a scheduled job ends `completed`; a retry job
updates `lastRunAt`/`nextRunAt`, leaves `status` untouched (still
`running`), and re-adds a delayed one-shot queue entry (whose `jobData`
omits `network`). On failure the job ends `failed` with `errorDetails`
persisted and no re-add. An unrecognised type logs WARN. -/
def jobWorker (doc : JobDoc) (action : String) (type_ : String)
    (scheduledAt : Option Int) (intervalMinutes : Int) (serviceOk : Bool)
    (now : Int) : WorkerResult :=
  let d1 := { doc with status := "running" }
  if type_ == "scheduled" then
    let notReached :=
      match scheduledAt with
      | some t => decide (t > now)
      | none => false
    if notReached then { doc := d1, queueAdds := [], logLevels := ["INFO", "WARN"] }
    else if runTaskSucceeds action serviceOk then
      { doc := { d1 with status := "completed", lastRunAt := some now }
        queueAdds := []
        logLevels := ["INFO", "INFO"] }
    else
      { doc := { d1 with status := "failed", errorSet := true }
        queueAdds := []
        logLevels := ["INFO", "ERROR"] }
  else if type_ == "retry" then
    if runTaskSucceeds action serviceOk then
      { doc :=
          { d1 with
            lastRunAt := some now
            nextRunAt := some (now + intervalMinutes * 60000) }
        queueAdds :=
          [{ action := action, delay := intervalMinutes * 60000, repeatEvery := none,
             hasNetwork := false }]
        logLevels := ["INFO", "INFO"] }
    else
      { doc := { d1 with status := "failed", errorSet := true }
        queueAdds := []
        logLevels := ["INFO", "ERROR"] }
  else { doc := d1, queueAdds := [], logLevels := ["INFO", "WARN"] }

end Sched

/-! Concrete inputs used by the witnesses, counterexamples and code-bug
evaluations below. -/

/-- A syntactically valid wallet / token / collection address. -/
def walletDemoAddr : String := "0xaaaaaaaaaaaaaaaaaaaaaaaaaaaaaaaaaaaaaaaa"

/-- A second syntactically valid address. -/
def otherDemoAddr : String := "0xbbbbbbbbbbbbbbbbbbbbbbbbbbbbbbbbbbbbbbbb"

/-- A token-analysis configuration with the worker's default thresholds. -/
def tokenDemoConfig : Token.TokenConfig :=
  { address := walletDemoAddr, name := "Tok", symbol := "TOK",
    thresholds := { largeTransfer := 1000000, whalePercentage := 10, volumeSpike := 200 },
    watchedAddresses := [] }

/-- One successful ERC-20 transfer row. -/
def tokenDemoTx : Token.Tx :=
  { timestamp := 0, from_ := otherDemoAddr, to_ := walletDemoAddr, value := 5,
    txHash := "h1", status := true,
    token := { hash := walletDemoAddr, name := "Tok", symbol := "TOK" } }

/-- The snapshot persisted by a first token cycle on `[tokenDemoTx]`. -/
def tokenDemoSnap : Token.MemeCoinSnapshot :=
  match Token.analyzeCoinFlows tokenDemoConfig "testnet" [tokenDemoTx] none 0 with
  | .saved s => s
  | _ => default

/-- An NFT-analysis configuration with the worker's default thresholds. -/
def nftDemoConfig : NFT.NFTConfig :=
  { address := walletDemoAddr, name := "Col", symbol := "COL",
    thresholds := { massTransferCount := 50, whaleTokenCount := 100,
                    suspiciousMintRate := 10, highActivitySpike := 200 },
    watchedAddresses := [] }

/-- One successful ERC-721 transfer row. -/
def nftDemoTx : NFT.NFTTx :=
  { timestamp := 0, from_ := otherDemoAddr, to_ := walletDemoAddr, tokenItemId := "7",
    txHash := "n1", status := true, fee := 3,
    token := { hash := walletDemoAddr, name := "Col", symbol := "COL" } }

/-- The snapshot persisted by a first NFT cycle on `[nftDemoTx]`. -/
def nftDemoSnap : NFT.NFTSnapshot :=
  match NFT.analyzeNFTMovements nftDemoConfig "testnet" [nftDemoTx] none 0 with
  | .saved s => s
  | _ => default

/-- A minimal pre-existing wallet snapshot for the demo wallet. -/
def priorWalletDemo : Wallet.WalletSnapshot :=
  { walletAddress := walletDemoAddr, network := "testnet", timestamp := -100,
    ethBalance := 0, erc20Tokens := some [], erc721Tokens := some [],
    transactionsAnalyzed := 0, transactionMetrics := Wallet.initMetrics,
    portfolioValue := { totalValue := JSNum.ofNat 0, nativeValue := JSNum.ofNat 0,
                        tokenValue := JSNum.ofNat 0 },
    riskScore := 1, alerts := [],
    analysisMetadata :=
      { dataQuality := "LIMITED",
        serviceStatus :=
          { erc20Tokens := "SUCCESS", erc721Tokens := "SUCCESS", transactions := "SUCCESS" } } }

/-- A wallet cycle's fetch outcome: every endpoint succeeded and the
transaction page is empty (no transactions outside any prior processed
list, vacuously). -/
def fetchEmptyDemo : Wallet.FetchResult :=
  { walletInfo := some { address := walletDemoAddr, balance := 5 }, walletInfo404 := false,
    tokensFetchOk := true, erc20Tokens := [], erc721Tokens := [],
    txFetchOk := true, transactions := [] }

/-- The account-info row returned for the demo wallet in the C6 scenario. -/
def walletInfoC6 : Wallet.WalletInfo := { address := walletDemoAddr, balance := 1000 }

/-- A wallet cycle's fetch outcome in which the native-balance fetch
succeeded but all three transaction endpoints failed (`transactions =
"N/A"` in the source). -/
def fetchC6Demo : Wallet.FetchResult :=
  { walletInfo := some walletInfoC6, walletInfo404 := false,
    tokensFetchOk := true, erc20Tokens := [], erc721Tokens := [],
    txFetchOk := false, transactions := [] }

/-- A successful outgoing transaction of value `10^22` (> the `10^21`
LARGE_TRANSACTION alert threshold, > the `10^20` risk-pattern threshold). -/
def txC8Demo : Wallet.WalletTx :=
  { hash := "h", timestamp := 0, value := 10 ^ 22, fee := 1, type_ := 0, actionType := "Send",
    from_ := some walletDemoAddr, to_ := some otherDemoAddr, data := none, method := none,
    gasPrice := 1, gasUsedByTransaction := 21000, status := true }

/-- A wallet cycle's fetch outcome whose transaction page is the single
huge transfer `txC8Demo`. -/
def fetchC8Demo : Wallet.FetchResult :=
  { walletInfo := some { address := walletDemoAddr, balance := 0 }, walletInfo404 := false,
    tokensFetchOk := true, erc20Tokens := [], erc721Tokens := [],
    txFetchOk := true, transactions := [txC8Demo] }

/-- The snapshot persisted by the wallet cycle on `fetchC8Demo`. -/
def walletC8Snap : Wallet.WalletSnapshot :=
  match Wallet.createWalletSnapshot walletDemoAddr "testnet" fetchC8Demo none 0 with
  | .saved s => s
  | _ => default

/-- A job-submission request whose `action` is not one of the three
dispatchable actions, but which passes every check the handler performs. -/
def reqC2Demo : Sched.JobRequest :=
  { action := "mint_unicorns", payloadPresent := true, network := none,
    type_ := "retry", scheduledAt := none, intervalMinutes := some 5 }

/-- A second unknown-action request (scheduled flavour). -/
def reqC2WitnessDemo : Sched.JobRequest :=
  { action := "definitely_not_an_action", payloadPresent := true, network := some "devnet",
    type_ := "scheduled", scheduledAt := some 500, intervalMinutes := none }

/-- A fully valid recurring-job submission request. -/
def reqC3Demo : Sched.JobRequest :=
  { action := "wallet_snapshot", payloadPresent := true, network := none,
    type_ := "retry", scheduledAt := none, intervalMinutes := some 5 }

/-- A fully valid scheduled-job submission request. -/
def reqC3WitnessDemo : Sched.JobRequest :=
  { action := "analyze_coin_flows", payloadPresent := true, network := none,
    type_ := "scheduled", scheduledAt := some 99, intervalMinutes := none }

/-- A pending retry-job document before a fire. -/
def docDemo : Sched.JobDoc :=
  { status := "pending", lastRunAt := none, nextRunAt := none, errorSet := false }

/-! ## Claim theorems -/

/-- C1 (counterexample): the claim quantifies over every analysis kind, but
the wallet analyzer has no deduplication or no-change short-circuit. Here a
prior wallet snapshot exists and the fetched transaction page is empty, so
no fetched transaction lies outside the prior snapshot's processed list —
yet the cycle persists (and returns) a fresh snapshot instead of returning
`null`. -/
theorem C1_counterexample_wallet_persists :
    (Wallet.createWalletSnapshot walletDemoAddr "testnet" fetchEmptyDemo
      (some priorWalletDemo) 0).isSaved = true := by rfl

/-- C6 (code bug): in a wallet cycle whose native-balance fetch succeeded
but whose transaction endpoints all failed, the code builds the degraded
snapshot with `analysisMetadata.dataQuality = "SERVICE_UNAVAILABLE"` — but
that string is missing from the wallet-snapshot schema's `dataQuality` enum
(`['COMPLETE','LIMITED','PARTIAL','UNAVAILABLE']`), so the Mongoose
validation run by `save()` rejects the document and the cycle fails instead
of persisting the partial-data snapshot the claim (and §7 of the spec)
describes. -/
theorem C6_service_unavailable_schema_mismatch :
    (Wallet.buildWalletSnapshot walletDemoAddr "testnet" walletInfoC6 fetchC6Demo
        none 0).analysisMetadata.dataQuality = "SERVICE_UNAVAILABLE" ∧
    Wallet.walletDataQualityEnum.contains "SERVICE_UNAVAILABLE" = false ∧
    Wallet.createWalletSnapshot walletDemoAddr "testnet" fetchC6Demo none 0 =
      .fail "MONGOOSE_VALIDATION_ERROR" := by
  exact ⟨rfl, rfl, rfl⟩

/-- C7 (counterexample): a token or NFT cycle with zero fetched items and
no prior snapshot (so zero new items) throws `Could not fetch token info`
rather than returning `null`: the feed info is derived from the first
fetched transaction, so with an empty page it is always missing, and the
code converts that into a thrown error, not a `null` return (and certainly
not a first snapshot with `totalTransfers = 0`). -/
theorem C7_counterexample_empty_feed_not_null :
    Token.analyzeCoinFlows tokenDemoConfig "testnet" [] none 0 =
      .fail "Could not fetch token info" ∧
    NFT.analyzeNFTMovements nftDemoConfig "testnet" [] none 0 =
      .fail "Could not fetch NFT token info" := by
  exact ⟨rfl, rfl⟩

/-- C8 (counterexample): a wallet cycle whose batch contains one
transaction of value `10^22` raises exactly one HIGH-severity alert
(`LARGE_TRANSACTION`), yet the persisted risk score is the base score 1:
the wallet risk calculation runs before alert detection and contains no
`+2`-per-HIGH / `+1`-per-MEDIUM terms (a `+2` contribution would force a
score of at least 3 here). -/
theorem C8_counterexample_no_alert_contribution :
    Wallet.createWalletSnapshot walletDemoAddr "testnet" fetchC8Demo none 0 =
      .saved walletC8Snap ∧
    (walletC8Snap.alerts.filter (fun a => a.severity == "HIGH")).length = 1 ∧
    walletC8Snap.riskScore = 1 := by
  exact ⟨rfl, rfl, rfl⟩

/-- C2 (counterexample): a `POST /jobs` request whose action
`"mint_unicorns"` is none of the three dispatchable actions is nonetheless
answered with 200 and a created Job record — the handler never validates
`action`. -/
theorem C2_counterexample_unknown_action_accepted :
    Sched.knownActions.contains reqC2Demo.action = false ∧
    (Sched.submitJob reqC2Demo 0 true).status = 200 ∧
    (Sched.submitJob reqC2Demo 0 true).jobCreated = true := by
  exact ⟨rfl, rfl, rfl⟩

/-- C3 (counterexample): when the queue broker is unreachable, the
submission handler still creates the Job record first; the enqueue failure
is then returned as an error (500), with the record already persisted —
contradicting "a Job record exists only if the queue submit succeeded". -/
theorem C3_counterexample_record_despite_queue_failure :
    (Sched.submitJob reqC3Demo 0 false).jobCreated = true ∧
    (Sched.submitJob reqC3Demo 0 false).status = 500 ∧
    (Sched.submitJob reqC3Demo 0 false).queueAdds = [] := by
  exact ⟨rfl, rfl, rfl⟩

/-- C9 (counterexample): after a successful cycle of a retry job the
worker's success branch updates `lastRunAt`/`nextRunAt` but never touches
`status`, so the job is left at `"running"` — not back at `"pending"` as
the claim's pending⇄running alternation requires. -/
theorem C9_counterexample_status_stays_running :
    (Sched.jobWorker docDemo "wallet_snapshot" "retry" none 5 true 1000).doc.status =
      "running" ∧ ("running" : String) ≠ "pending" := by
  exact ⟨rfl, by decide⟩

/-- A token cycle that returns a saved snapshot built it from
`analyzeCumulativeFlows` on the deduplicated new transactions. -/
theorem token_saved_flowMetrics {config : Token.TokenConfig} {network : String}
    {fetched : List Token.Tx} {prev : Option Token.MemeCoinSnapshot} {now : Int}
    {s : Token.MemeCoinSnapshot}
    (h : Token.analyzeCoinFlows config network fetched prev now = .saved s) :
    s.flowMetrics =
      Token.analyzeCumulativeFlows (Token.getNewTransactions fetched prev) config prev now := by
  unfold Token.analyzeCoinFlows at h
  split at h
  · exact absurd h (by simp)
  · split at h
    · exact absurd h (by simp)
    · dsimp only at h
      split at h
      · exact absurd h (by simp)
      · cases h
        rfl

/-- An NFT cycle that returns a saved snapshot built it from
`analyzeCumulativeNFTMovements` on the deduplicated new transactions. -/
theorem nft_saved_movementMetrics {config : NFT.NFTConfig} {network : String}
    {fetched : List NFT.NFTTx} {prev : Option NFT.NFTSnapshot} {now : Int}
    {s : NFT.NFTSnapshot}
    (h : NFT.analyzeNFTMovements config network fetched prev now = .saved s) :
    s.movementMetrics =
      NFT.analyzeCumulativeNFTMovements (NFT.getNewNFTTransactions fetched prev) prev now := by
  unfold NFT.analyzeNFTMovements at h
  split at h
  · exact absurd h (by simp)
  · split at h
    · exact absurd h (by simp)
    · dsimp only at h
      split at h
      · exact absurd h (by simp)
      · cases h
        rfl

/-- C4: whenever a token or NFT cycle persists a snapshot `s`, its
cumulative `totalTransfers` equals the prior snapshot's `totalTransfers`
(0 when there is no prior snapshot) plus the number of fetched transactions
whose hashes are not in the prior snapshot's `processedTransactionHashes`
list. -/
theorem C4_cumulative_total_transfers :
    (∀ (config : Token.TokenConfig) (network : String) (fetched : List Token.Tx)
        (prev : Option Token.MemeCoinSnapshot) (now : Int) (s : Token.MemeCoinSnapshot),
        Token.analyzeCoinFlows config network fetched prev now = .saved s →
        s.flowMetrics.totalTransfers =
          (match prev with
            | some p => p.flowMetrics.totalTransfers
            | none => 0) + (Token.getNewTransactions fetched prev).length) ∧
    (∀ (config : NFT.NFTConfig) (network : String) (fetched : List NFT.NFTTx)
        (prev : Option NFT.NFTSnapshot) (now : Int) (s : NFT.NFTSnapshot),
        NFT.analyzeNFTMovements config network fetched prev now = .saved s →
        s.movementMetrics.totalTransfers =
          (match prev with
            | some p => p.movementMetrics.totalTransfers
            | none => 0) + (NFT.getNewNFTTransactions fetched prev).length) := by
  constructor
  · intro config network fetched prev now s h
    rw [token_saved_flowMetrics h]
    cases prev <;> rfl
  · intro config network fetched prev now s h
    rw [nft_saved_movementMetrics h]
    cases prev <;> rfl

/-- C4 (witness): first cycles on one-transaction pages, token and NFT. -/
theorem C4_cumulative_total_transfers_witness :
    tokenDemoSnap.flowMetrics.totalTransfers =
      (match (none : Option Token.MemeCoinSnapshot) with
        | some p => p.flowMetrics.totalTransfers
        | none => 0) + (Token.getNewTransactions [tokenDemoTx] none).length ∧
    nftDemoSnap.movementMetrics.totalTransfers =
      (match (none : Option NFT.NFTSnapshot) with
        | some p => p.movementMetrics.totalTransfers
        | none => 0) + (NFT.getNewNFTTransactions [nftDemoTx] none).length := by
  exact ⟨C4_cumulative_total_transfers.1 tokenDemoConfig "testnet" [tokenDemoTx] none 0
          tokenDemoSnap rfl,
        C4_cumulative_total_transfers.2 nftDemoConfig "testnet" [nftDemoTx] none 0
          nftDemoSnap rfl⟩

/-- C5: the bounded windows are enforced by truncation on every merge,
for arbitrary inputs and prior snapshots — token snapshots keep at most 100
large transfers, 100 burns and 1000 processed hashes; NFT snapshots keep at
most 1000 history entries, 500 mints, 500 burns and 2000 processed hashes.
(Every persisted snapshot's metrics object is produced by one of these two
merge functions.) -/
theorem C5_bounded_windows :
    (∀ (newTxs : List Token.Tx) (config : Token.TokenConfig)
        (prev : Option Token.MemeCoinSnapshot) (now : Int),
        (Token.analyzeCumulativeFlows newTxs config prev now).largeTransfers.length ≤ 100 ∧
        (Token.analyzeCumulativeFlows newTxs config prev now).burnTransactions.length ≤ 100 ∧
        (Token.analyzeCumulativeFlows newTxs config prev
            now).processedTransactionHashes.length ≤ 1000) ∧
    (∀ (newTxs : List NFT.NFTTx) (prev : Option NFT.NFTSnapshot) (now : Int),
        (NFT.analyzeCumulativeNFTMovements newTxs prev now).transferHistory.length ≤ 1000 ∧
        (NFT.analyzeCumulativeNFTMovements newTxs prev now).mintTransactions.length ≤ 500 ∧
        (NFT.analyzeCumulativeNFTMovements newTxs prev now).burnTransactions.length ≤ 500 ∧
        (NFT.analyzeCumulativeNFTMovements newTxs prev
            now).processedTransactionHashes.length ≤ 2000) := by
  constructor
  · intro newTxs config prev now
    refine ⟨?_, ?_, ?_⟩ <;> exact List.length_take_le _ _
  · intro newTxs prev now
    refine ⟨?_, ?_, ?_, ?_⟩ <;> exact List.length_take_le _ _

/-- C1 (amended): the no-change short-circuit exists only for the token and
NFT kinds, and only when the fetched page is nonempty (an empty page kills
the cycle earlier, at the token-info check): a token or NFT cycle with a
prior snapshot whose processed-hash list covers every fetched transaction
returns `null` and persists nothing. The wallet analyzer has no
deduplication or short-circuit at all: it never returns the no-change
`null`, and persists a fresh snapshot on every cycle that does not fail. -/
theorem C1_amended_null_short_circuit :
    (∀ (config : Token.TokenConfig) (network : String) (fetched : List Token.Tx)
        (p : Token.MemeCoinSnapshot) (now : Int),
        isValidEthereumAddress config.address = true →
        fetched ≠ [] →
        (∀ tx ∈ fetched,
          p.flowMetrics.processedTransactionHashes.contains tx.txHash = true) →
        Token.analyzeCoinFlows config network fetched (some p) now = .nullResult) ∧
    (∀ (config : NFT.NFTConfig) (network : String) (fetched : List NFT.NFTTx)
        (p : NFT.NFTSnapshot) (now : Int),
        isValidEthereumAddress config.address = true →
        fetched ≠ [] →
        (∀ tx ∈ fetched,
          p.movementMetrics.processedTransactionHashes.contains tx.txHash = true) →
        NFT.analyzeNFTMovements config network fetched (some p) now = .nullResult) ∧
    (∀ (wallet network : String) (fetch : Wallet.FetchResult)
        (prev : Option Wallet.WalletSnapshot) (now : Int),
        Wallet.createWalletSnapshot wallet network fetch prev now ≠ .nullResult) := by
  refine ⟨?_, ?_, ?_⟩
  · intro config network fetched p now hv hne hall
    obtain ⟨t, ts, rfl⟩ := List.exists_cons_of_ne_nil hne
    have hfil : Token.getNewTransactions (t :: ts) (some p) = [] := by
      unfold Token.getNewTransactions
      rw [List.filter_eq_nil_iff]
      intro a ha
      simpa using hall a ha
    unfold Token.analyzeCoinFlows
    rw [hv]
    simp [hfil]
  · intro config network fetched p now hv hne hall
    obtain ⟨t, ts, rfl⟩ := List.exists_cons_of_ne_nil hne
    have hfil : NFT.getNewNFTTransactions (t :: ts) (some p) = [] := by
      unfold NFT.getNewNFTTransactions
      rw [List.filter_eq_nil_iff]
      intro a ha
      simpa using hall a ha
    unfold NFT.analyzeNFTMovements
    rw [hv]
    simp [hfil]
  · intro wallet network fetch prev now h
    unfold Wallet.createWalletSnapshot at h
    split at h
    · exact absurd h (by simp)
    · split at h
      · split at h
        · exact absurd h (by simp)
        · exact absurd h (by simp)
      · split at h
        · exact absurd h (by simp)
        · dsimp only at h
          split at h
          · exact absurd h (by simp)
          · exact absurd h (by simp)

/-- C1 (witness): second cycles re-fetching the very pages that produced
the demo snapshots return `null` for both token and NFT kinds. -/
theorem C1_amended_witness :
    Token.analyzeCoinFlows tokenDemoConfig "testnet" [tokenDemoTx] (some tokenDemoSnap) 0 =
      .nullResult ∧
    NFT.analyzeNFTMovements nftDemoConfig "testnet" [nftDemoTx] (some nftDemoSnap) 0 =
      .nullResult := by
  exact ⟨C1_amended_null_short_circuit.1 tokenDemoConfig "testnet" [tokenDemoTx]
      tokenDemoSnap 0 (by decide) (by simp) (by decide),
    C1_amended_null_short_circuit.2.1 nftDemoConfig "testnet" [nftDemoTx]
      nftDemoSnap 0 (by decide) (by simp) (by decide)⟩

/-- C7 (amended): with no prior snapshot, deduplication removes nothing, so
zero new items forces an empty fetched page; the feed info is derived from
the first fetched row and is therefore unobtainable, and the cycle fails
with a could-not-fetch-token-info error — it neither writes a
`totalTransfers = 0` first snapshot nor returns `null` (an invalid entity
address fails even earlier). -/
theorem C7_amended_empty_feed_fails :
    (∀ (fetched : List Token.Tx), Token.getNewTransactions fetched none = fetched) ∧
    (∀ (config : Token.TokenConfig) (network : String) (now : Int),
        Token.analyzeCoinFlows config network [] none now =
          (if isValidEthereumAddress config.address then
            CycleResult.fail "Could not fetch token info"
          else CycleResult.fail "INVALID_ADDRESS_FORMAT")) ∧
    (∀ (fetched : List NFT.NFTTx), NFT.getNewNFTTransactions fetched none = fetched) ∧
    (∀ (config : NFT.NFTConfig) (network : String) (now : Int),
        NFT.analyzeNFTMovements config network [] none now =
          (if isValidEthereumAddress config.address then
            CycleResult.fail "Could not fetch NFT token info"
          else CycleResult.fail "INVALID_ADDRESS_FORMAT")) := by
  refine ⟨fun fetched => rfl, ?_, fun fetched => rfl, ?_⟩
  · intro config network now
    cases hv : isValidEthereumAddress config.address <;>
      simp [Token.analyzeCoinFlows, hv]
  · intro config network now
    cases hv : isValidEthereumAddress config.address <;>
      simp [NFT.analyzeNFTMovements, hv]

/-- C2 (amended): the `POST /jobs` handler performs no validation of
`action` at all — any request that passes the network check, the
type-specific schedule checks and the Job schema's own create-validation is
answered 200 with a created Job record, whatever its action; unknown
actions only fail later, inside the worker's `runTask` dispatch. -/
theorem C2_amended_no_action_validation :
    ∀ (req : Sched.JobRequest) (now : Int),
      Sched.isValidNetwork (req.network.getD Sched.DEFAULT_NETWORK) = true →
      (req.type_ == "scheduled" && req.scheduledAt.isNone) = false →
      (req.type_ == "retry" && Sched.intervalFalsy req.intervalMinutes) = false →
      Sched.jobCreateValid req (req.network.getD Sched.DEFAULT_NETWORK) = true →
      (Sched.submitJob req now true).status = 200 ∧
      (Sched.submitJob req now true).jobCreated = true := by
  intro req now h1 h2 h3 h4
  cases hs : (req.type_ == "scheduled") with
  | true =>
    have ht : req.type_ = "scheduled" := by simpa using hs
    rw [ht] at h2
    simp only [beq_self_eq_true, Bool.true_and] at h2
    simp +decide [Sched.submitJob, h1, h2, h4, ht]
  | false =>
    cases hr : (req.type_ == "retry") with
    | true =>
      have ht : req.type_ = "retry" := by simpa using hr
      rw [ht] at h3
      simp only [beq_self_eq_true, Bool.true_and] at h3
      simp +decide [Sched.submitJob, h1, h3, h4, ht]
    | false =>
      exfalso
      simp [Sched.jobCreateValid, Sched.jobTypeEnum, List.contains, List.elem, hs, hr] at h4

/-- C2 (witness): a scheduled job with an action outside the dispatchable
set is accepted. -/
theorem C2_amended_witness :
    (Sched.submitJob reqC2WitnessDemo 0 true).status = 200 ∧
    (Sched.submitJob reqC2WitnessDemo 0 true).jobCreated = true :=
  C2_amended_no_action_validation reqC2WitnessDemo 0 rfl rfl rfl rfl

/-- C3 (amended): the handler creates the Job record before enrolling the
job in the queue, and does not roll it back: when the broker is unreachable
the error is returned to the caller (500) and no queue entry exists, but
the Job record has already been created and remains in the store. -/
theorem C3_amended_record_created_first :
    ∀ (req : Sched.JobRequest) (now : Int),
      Sched.isValidNetwork (req.network.getD Sched.DEFAULT_NETWORK) = true →
      (req.type_ == "scheduled" && req.scheduledAt.isNone) = false →
      (req.type_ == "retry" && Sched.intervalFalsy req.intervalMinutes) = false →
      Sched.jobCreateValid req (req.network.getD Sched.DEFAULT_NETWORK) = true →
      (Sched.submitJob req now false).jobCreated = true ∧
      (Sched.submitJob req now false).status = 500 ∧
      (Sched.submitJob req now false).queueAdds = [] := by
  intro req now h1 h2 h3 h4
  cases hs : (req.type_ == "scheduled") with
  | true =>
    have ht : req.type_ = "scheduled" := by simpa using hs
    rw [ht] at h2
    simp only [beq_self_eq_true, Bool.true_and] at h2
    simp +decide [Sched.submitJob, h1, h2, h4, ht]
  | false =>
    cases hr : (req.type_ == "retry") with
    | true =>
      have ht : req.type_ = "retry" := by simpa using hr
      rw [ht] at h3
      simp only [beq_self_eq_true, Bool.true_and] at h3
      simp +decide [Sched.submitJob, h1, h3, h4, ht]
    | false =>
      exfalso
      simp [Sched.jobCreateValid, Sched.jobTypeEnum, List.contains, List.elem, hs, hr] at h4

/-- C3 (witness): a valid scheduled-job submission against an unreachable
broker leaves the record created, the error surfaced, and nothing
enqueued. -/
theorem C3_amended_witness :
    (Sched.submitJob reqC3WitnessDemo 0 false).jobCreated = true ∧
    (Sched.submitJob reqC3WitnessDemo 0 false).status = 500 ∧
    (Sched.submitJob reqC3WitnessDemo 0 false).queueAdds = [] :=
  C3_amended_record_created_first reqC3WitnessDemo 0 rfl rfl rfl rfl

/-- C8 (amended): the wallet risk score is `min(1 + the six pattern-based
indicator contributions, 10)` — a function of the fetched batch and the
merged metrics only, computed before alert detection; it contains no
per-alert severity terms (those exist in the token and NFT risk scores but
not the wallet one). -/
theorem C8_amended_pattern_only_risk :
    (∀ (transactions : List Wallet.WalletTx) (metrics : Wallet.TransactionMetrics),
        Wallet.calculateRiskScore transactions metrics =
          min (1 +
            (if transactions.length > 50 then 1 else 0) +
            (if (transactions.filter (fun tx => tx.value > 10 ^ 20)).length > 5 then 1 else 0) +
            (if metrics.uniqueContracts.length > 20 then 1 else 0) +
            (if JSNum.lt (JSNum.ofNat 200000)
                (JSNum.div (JSNum.ofNat metrics.totalGasUsed)
                  (JSNum.ofNat (max transactions.length 1))) = true then 1 else 0) +
            (if JSNum.lt (JSNum.mul (JSNum.ofNat transactions.length) { num := 1, den := 10 })
                (JSNum.ofNat (transactions.filter (fun tx => !tx.status)).length) = true
              then 1 else 0) +
            (if JSNum.lt (JSNum.mul (JSNum.ofNat transactions.length) { num := 1, den := 2 })
                (JSNum.ofNat
                  (transactions.filter (fun tx => tx.type_ == 2 && tx.value == 0)).length) = true
              then 1 else 0)) 10) ∧
    (∀ (wallet network : String) (walletInfo : Wallet.WalletInfo)
        (fetch : Wallet.FetchResult) (prev : Option Wallet.WalletSnapshot) (now : Int),
        (Wallet.buildWalletSnapshot wallet network walletInfo fetch prev now).riskScore =
          Wallet.calculateRiskScore (if fetch.txFetchOk then fetch.transactions else [])
            (Wallet.buildWalletSnapshot wallet network walletInfo fetch prev
              now).transactionMetrics) := by
  exact ⟨fun transactions metrics => rfl,
         fun wallet network walletInfo fetch prev now => rfl⟩

/-- C9 (amended): a retry job's status never reaches `completed`, but it
does not alternate back to `pending` either: every fire sets it to
`running`, a successful cycle leaves it there, and only a failed cycle
moves it (to `failed`); a scheduled job that fires on time is terminal
after its first run (`completed` on success, `failed` on failure). -/
theorem C9_amended_retry_status :
    (∀ (doc : Sched.JobDoc) (action : String) (sAt : Option Int) (interval : Int)
        (serviceOk : Bool) (now : Int),
        (Sched.jobWorker doc action "retry" sAt interval serviceOk now).doc.status ≠
          "completed") ∧
    (∀ (doc : Sched.JobDoc) (action : String) (sAt : Option Int) (interval : Int)
        (serviceOk : Bool) (now : Int),
        Sched.runTaskSucceeds action serviceOk = true →
        (Sched.jobWorker doc action "retry" sAt interval serviceOk now).doc.status =
          "running") ∧
    (∀ (doc : Sched.JobDoc) (action : String) (sAt : Option Int) (interval : Int)
        (serviceOk : Bool) (now : Int),
        Sched.runTaskSucceeds action serviceOk = false →
        (Sched.jobWorker doc action "retry" sAt interval serviceOk now).doc.status =
          "failed") ∧
    (∀ (doc : Sched.JobDoc) (action : String) (t now interval : Int) (serviceOk : Bool),
        t ≤ now →
        Sched.runTaskSucceeds action serviceOk = true →
        (Sched.jobWorker doc action "scheduled" (some t) interval serviceOk now).doc.status =
          "completed") ∧
    (∀ (doc : Sched.JobDoc) (action : String) (t now interval : Int) (serviceOk : Bool),
        t ≤ now →
        Sched.runTaskSucceeds action serviceOk = false →
        (Sched.jobWorker doc action "scheduled" (some t) interval serviceOk now).doc.status =
          "failed") := by
  refine ⟨?_, ?_, ?_, ?_, ?_⟩
  · intro doc action sAt interval serviceOk now
    cases h : Sched.runTaskSucceeds action serviceOk <;> simp [Sched.jobWorker, h]
  · intro doc action sAt interval serviceOk now h
    simp [Sched.jobWorker, h]
  · intro doc action sAt interval serviceOk now h
    simp [Sched.jobWorker, h]
  · intro doc action t now interval serviceOk ht h
    have hd : decide (t > now) = false := by
      simp only [decide_eq_false_iff_not]
      omega
    simp [Sched.jobWorker, h, hd]
  · intro doc action t now interval serviceOk ht h
    have hd : decide (t > now) = false := by
      simp only [decide_eq_false_iff_not]
      omega
    simp [Sched.jobWorker, h, hd]

/-- C9 (witness): a successful retry fire leaves the status at running. -/
theorem C9_amended_witness :
    (Sched.jobWorker docDemo "analyze_coin_flows" "retry" none 2 true 0).doc.status =
      "running" :=
  C9_amended_retry_status.2.1 docDemo "analyze_coin_flows" none 2 true 0 rfl

/-- C10: after every successful retry cycle the worker itself enqueues one
additional delayed one-shot instance of the job, delayed by
`intervalMinutes × 60 000` ms (and omitting the `network` field from the
queued data); a failed cycle enqueues nothing. Submission had already
registered, besides the immediate fire, a repeating queue entry with the
same interval — so each successful cycle leaves both the broker repetition
and the worker's extra one-shot as independent future-fire schedules. -/
theorem C10_double_scheduling :
    (∀ (doc : Sched.JobDoc) (action : String) (sAt : Option Int) (interval : Int)
        (serviceOk : Bool) (now : Int),
        Sched.runTaskSucceeds action serviceOk = true →
        (Sched.jobWorker doc action "retry" sAt interval serviceOk now).queueAdds =
          [{ action := action, delay := interval * 60000, repeatEvery := none,
             hasNetwork := false }]) ∧
    (∀ (doc : Sched.JobDoc) (action : String) (sAt : Option Int) (interval : Int)
        (serviceOk : Bool) (now : Int),
        Sched.runTaskSucceeds action serviceOk = false →
        (Sched.jobWorker doc action "retry" sAt interval serviceOk now).queueAdds = []) ∧
    (∀ (req : Sched.JobRequest) (now : Int),
        Sched.isValidNetwork (req.network.getD Sched.DEFAULT_NETWORK) = true →
        (req.type_ == "retry") = true →
        Sched.intervalFalsy req.intervalMinutes = false →
        Sched.jobCreateValid req (req.network.getD Sched.DEFAULT_NETWORK) = true →
        (Sched.submitJob req now true).queueAdds =
          [ { action := req.action, delay := 0, repeatEvery := none, hasNetwork := true }
          , { action := req.action, delay := (req.intervalMinutes.getD 0) * 60000,
              repeatEvery := some ((req.intervalMinutes.getD 0) * 60000),
              hasNetwork := true } ]) := by
  refine ⟨?_, ?_, ?_⟩
  · intro doc action sAt interval serviceOk now h
    simp [Sched.jobWorker, h]
  · intro doc action sAt interval serviceOk now h
    simp [Sched.jobWorker, h]
  · intro req now h1 hr h3 h4
    have ht : req.type_ = "retry" := by simpa using hr
    simp [Sched.submitJob, h1, h3, h4, ht]

/-- C10 (witness): a successful retry fire of a 5-minute job re-enqueues
one delayed one-shot (300 000 ms), and the original submission had
registered the immediate fire plus the 300 000 ms repetition. -/
theorem C10_double_scheduling_witness :
    (Sched.jobWorker docDemo "wallet_snapshot" "retry" none 5 true 0).queueAdds =
      [{ action := "wallet_snapshot", delay := 5 * 60000, repeatEvery := none,
         hasNetwork := false }] ∧
    (Sched.submitJob reqC3Demo 0 true).queueAdds =
      [ { action := reqC3Demo.action, delay := 0, repeatEvery := none, hasNetwork := true }
      , { action := reqC3Demo.action, delay := (reqC3Demo.intervalMinutes.getD 0) * 60000,
          repeatEvery := some ((reqC3Demo.intervalMinutes.getD 0) * 60000),
          hasNetwork := true } ] := by
  exact ⟨C10_double_scheduling.1 docDemo "wallet_snapshot" none 5 true 0 rfl,
         C10_double_scheduling.2.2 reqC3Demo 0 rfl rfl rfl rfl⟩

end VincentAI
